import Mathlib

/-!
Verification of `ecef_to_sez.py`: conversion of ECEF coordinates to SEZ
(South-East-Zenith) topocentric coordinates.

The script is shallowly embedded as follows: a Python `float` value is a
`PyFloat := Option ℝ`, with `none` standing for NaN; arithmetic propagates
NaN exactly as IEEE/CPython does, and the operations that can raise a
Python exception (`/`, `math.sqrt`, `math.asin`, list indexing) return
`Except PyErr`.  The latitude-refinement `while` loop is modelled by a
fuel-indexed recursion whose guard is the literal loop condition of the
script (the fuel is irrelevant beyond 5 because of the `count < 5`
conjunct, which is proved below).
-/

namespace EcefToSez

/-- A Python float: a real number, or NaN (`none`). -/
abbrev PyFloat : Type := Option ℝ

/-- Python runtime errors that the script can raise. -/
inductive PyErr : Type
  | zeroDivisionError : PyErr
  | valueError : String → PyErr
  | indexError : PyErr
  deriving DecidableEq

/-- The message of the dimension check in `matrix_multiply` (line 52). -/
def mmErrMsg : String :=
  "Matrix multiplication is not possible. Columns of matrix1 must equal rows of matrix2."

/-- The message of CPython `math` domain errors (`math.sqrt`, `math.asin`). -/
def mathDomainMsg : String := "math domain error"

/-- Python list indexing `l[i]`: raises `IndexError` when out of range. -/
def pyIndex {α : Type} (l : List α) (i : Nat) : Except PyErr α :=
  match l.get? i with
  | some x => Except.ok x
  | none => Except.error PyErr.indexError

/-- Python float addition; NaN propagates. -/
def pyAdd : PyFloat → PyFloat → PyFloat
  | some a, some b => some (a + b)
  | _, _ => none

/-- Python float subtraction; NaN propagates. -/
def pySub : PyFloat → PyFloat → PyFloat
  | some a, some b => some (a - b)
  | _, _ => none

/-- Python float multiplication; NaN propagates (also `0 * NaN = NaN`). -/
def pyMul : PyFloat → PyFloat → PyFloat
  | some a, some b => some (a * b)
  | _, _ => none

/-- Python float negation; NaN propagates. -/
def pyNeg : PyFloat → PyFloat
  | some a => some (-a)
  | none => none

/-- Python float power `x ** n` for a natural exponent (`NaN ** 0 = 1.0`). -/
def pyPow : PyFloat → Nat → PyFloat
  | some a, n => some (a ^ n)
  | none, n => if n = 0 then some 1 else none

/-- Python float division: raises `ZeroDivisionError` whenever the divisor is
(finite) zero — even for `nan/0.0` — and propagates NaN otherwise. -/
noncomputable def pyDiv : PyFloat → PyFloat → Except PyErr PyFloat
  | _, none => Except.ok none
  | a, some b =>
    if b = 0 then Except.error PyErr.zeroDivisionError
    else
      match a with
      | some x => Except.ok (some (x / b))
      | none => Except.ok none

/-- `math.sqrt`: `ValueError` on negative (finite) input, NaN propagates. -/
noncomputable def pySqrt : PyFloat → Except PyErr PyFloat
  | none => Except.ok none
  | some a =>
    if a < 0 then Except.error (PyErr.valueError mathDomainMsg)
    else Except.ok (some (Real.sqrt a))

/-- `math.asin`: `ValueError` outside `[-1, 1]` (finite), NaN propagates. -/
noncomputable def pyAsin : PyFloat → Except PyErr PyFloat
  | none => Except.ok none
  | some a =>
    if 1 < |a| then Except.error (PyErr.valueError mathDomainMsg)
    else Except.ok (some (Real.arcsin a))

/-- `math.sin`; NaN propagates. -/
noncomputable def pySin : PyFloat → PyFloat
  | some a => some (Real.sin a)
  | none => none

/-- `math.cos`; NaN propagates. -/
noncomputable def pyCos : PyFloat → PyFloat
  | some a => some (Real.cos a)
  | none => none

/-- `math.atan`; NaN propagates. -/
noncomputable def pyAtan : PyFloat → PyFloat
  | some a => some (Real.arctan a)
  | none => none

/-- `math.atan2(y, x)`, i.e. the argument of the complex number `x + y·i`
(range `(-π, π]`, and `atan2 0 0 = 0`); NaN propagates. -/
noncomputable def pyAtan2 : PyFloat → PyFloat → PyFloat
  | some y, some x => some (Complex.arg ⟨x, y⟩)
  | _, _ => none

/-- Line 33: equatorial radius, km. -/
noncomputable def R_E_KM : ℝ := 6378.137

/-- Line 34: first eccentricity of the ellipsoid. -/
noncomputable def E_E : ℝ := 0.081819221456

/-- Lines 39–40, `calc_denom(ecc, lat_rad) = sqrt(1.0 - ecc**2 * sin(lat_rad)**2)`. -/
noncomputable def calc_denom (ecc lat_rad : PyFloat) : Except PyErr PyFloat :=
  pySqrt (pySub (some 1) (pyMul (pyPow ecc 2) (pyPow (pySin lat_rad) 2)))

/-- Lines 43–61, the generic matrix multiply.  Dimensions are taken from
`len(matrix)` and `len(matrix[0])` (the latter raises `IndexError` on an
empty list, before the dimension check), the dimension check raises
`ValueError`, and the triple nested loop accumulates
`result[i][j] += matrix1[i][k] * matrix2[k][j]` starting from the int `0`. -/
def matrix_multiply (matrix1 matrix2 : List (List PyFloat)) :
    Except PyErr (List (List PyFloat)) := do
  let rows_matrix1 := matrix1.length
  let row1 ← pyIndex matrix1 0
  let cols_matrix1 := row1.length
  let rows_matrix2 := matrix2.length
  let row2 ← pyIndex matrix2 0
  let cols_matrix2 := row2.length
  if cols_matrix1 ≠ rows_matrix2 then
    Except.error (PyErr.valueError mmErrMsg)
  else
    (List.range rows_matrix1).mapM (fun i =>
      (List.range cols_matrix2).mapM (fun j =>
        (List.range cols_matrix1).foldlM (fun acc k => do
          let rowi ← pyIndex matrix1 i
          let a ← pyIndex rowi k
          let rowk ← pyIndex matrix2 k
          let b ← pyIndex rowk j
          Except.ok (pyAdd acc (pyMul a b))) (some 0)))

/-- The state of the latitude-refinement loop (lines 93–105):
current latitude estimate, previous estimate, `c_E`, iteration count. -/
structure LatState : Type where
  o_lat_rad : PyFloat
  prev_lat_rad : PyFloat
  c_E : PyFloat
  count : Nat

/-- Line 100, the `while` guard:
`(isnan(prev_lat_rad) or abs(o_lat_rad - prev_lat_rad) > 10e-7) and count < 5`.
A NaN comparison (`nan > 10e-7`) is false in Python, which the second
disjunct captures by requiring the subtraction to be non-NaN. -/
def loopCond (s : LatState) : Prop :=
  (s.prev_lat_rad = none ∨
    ∃ d : ℝ, pySub s.o_lat_rad s.prev_lat_rad = some d ∧ 10e-7 < |d|) ∧
  s.count < 5

/-- Lines 101–105, one iteration of the loop body. -/
noncomputable def latBody (o_z_km r_lon_km : PyFloat) (s : LatState) :
    Except PyErr LatState := do
  let denom ← calc_denom (some E_E) s.o_lat_rad
  let c_E ← pyDiv (some R_E_KM) denom
  let quot ← pyDiv
    (pyAdd o_z_km (pyMul (pyMul c_E (pyPow (some E_E) 2)) (pySin s.o_lat_rad)))
    r_lon_km
  Except.ok ⟨pyAtan quot, s.o_lat_rad, c_E, s.count + 1⟩

open Classical in
/-- The `while` loop of lines 100–105, as a fuel-indexed recursion with the
literal guard `loopCond`; the script runs it with fuel 5 (which is proved
sufficient: `count < 5` already bounds the iteration number). -/
noncomputable def latLoop (o_z_km r_lon_km : PyFloat) : Nat → LatState → Except PyErr LatState
  | 0, s => Except.ok s
  | fuel + 1, s =>
    if loopCond s then
      (latBody o_z_km r_lon_km s).bind (latLoop o_z_km r_lon_km fuel)
    else Except.ok s

/-- The latitude update of one loop iteration (lines 101–104) on real
values: `atan((o_z + c_E·e²·sin lat) / r_lon)` with
`c_E = R_E_KM / sqrt(1 − e²·sin² lat)`. -/
noncomputable def latUpdate (o_z_km r_lon_km lat : ℝ) : ℝ :=
  Real.arctan ((o_z_km +
    R_E_KM / Real.sqrt (1 - E_E ^ 2 * Real.sin lat ^ 2) * E_E ^ 2 * Real.sin lat) / r_lon_km)

/-- Lines 88–105: longitude `atan2(o_y, o_x)`, initial latitude
`asin(o_z / sqrt(o_x² + o_y² + o_z²))`, `r_lon = sqrt(o_x² + o_y²)`, then
the refinement loop.  Returns the final loop state and the longitude. -/
noncomputable def geodetic_solve (o_x_km o_y_km o_z_km : PyFloat) :
    Except PyErr (LatState × PyFloat) := do
  let o_lon_rad := pyAtan2 o_y_km o_x_km
  let norm ← pySqrt (pyAdd (pyAdd (pyPow o_x_km 2) (pyPow o_y_km 2)) (pyPow o_z_km 2))
  let ratio ← pyDiv o_z_km norm
  let o_lat_rad0 ← pyAsin ratio
  let r_lon_km ← pySqrt (pyAdd (pyPow o_x_km 2) (pyPow o_y_km 2))
  let s ← latLoop o_z_km r_lon_km 5 ⟨o_lat_rad0, none, none, 0⟩
  Except.ok (s, o_lon_rad)

/-- Lines 110–113, the matrix `Ryinv`. -/
noncomputable def Ryinv_mat (o_lat_rad : PyFloat) : List (List PyFloat) :=
  [[pySin o_lat_rad, some 0, pyNeg (pyCos o_lat_rad)],
   [some 0, some 1, some 0],
   [pyCos o_lat_rad, some 0, pySin o_lat_rad]]

/-- Lines 114–117, the matrix `Rzinv`. -/
noncomputable def Rzinv_mat (o_lon_rad : PyFloat) : List (List PyFloat) :=
  [[pyCos o_lon_rad, pySin o_lon_rad, some 0],
   [pyNeg (pySin o_lon_rad), pyCos o_lon_rad, some 0],
   [some 0, some 0, some 1]]

/-- Lines 107–123: the relative vector, the two rotations applied in the
order `Ryinv · (Rzinv · r_rel)`, and the three printed components. -/
noncomputable def sez_transform
    (o_lat_rad o_lon_rad o_x_km o_y_km o_z_km x_km y_km z_km : PyFloat) :
    Except PyErr (PyFloat × PyFloat × PyFloat) := do
  let r_rel_ecef := [[pySub x_km o_x_km], [pySub y_km o_y_km], [pySub z_km o_z_km]]
  let inner ← matrix_multiply (Rzinv_mat o_lon_rad) r_rel_ecef
  let r_sez ← matrix_multiply (Ryinv_mat o_lat_rad) inner
  let row0 ← pyIndex r_sez 0
  let out0 ← pyIndex row0 0
  let row1 ← pyIndex r_sez 1
  let out1 ← pyIndex row1 0
  let row2 ← pyIndex r_sez 2
  let out2 ← pyIndex row2 0
  Except.ok (out0, out1, out2)

/-- The whole script body (lines 88–123) on already-parsed inputs: geodetic
solve of the origin, then the SEZ transform. -/
noncomputable def runScript (o_x_km o_y_km o_z_km x_km y_km z_km : PyFloat) :
    Except PyErr (PyFloat × PyFloat × PyFloat) := do
  let res ← geodetic_solve o_x_km o_y_km o_z_km
  sez_transform res.1.o_lat_rad res.2 o_x_km o_y_km o_z_km x_km y_km z_km

/-- Modelled from the spec: `Ry⁻¹(lat)` with rows
`[sin lat, 0, -cos lat]`, `[0, 1, 0]`, `[cos lat, 0, sin lat]`. -/
noncomputable def RyinvSpec (lat : ℝ) : Matrix (Fin 3) (Fin 3) ℝ :=
  Matrix.of ![![Real.sin lat, 0, -Real.cos lat], ![0, 1, 0], ![Real.cos lat, 0, Real.sin lat]]

/-- Modelled from the spec: `Rz⁻¹(lon)` with rows
`[cos lon, sin lon, 0]`, `[-sin lon, cos lon, 0]`, `[0, 0, 1]`. -/
noncomputable def RzinvSpec (lon : ℝ) : Matrix (Fin 3) (Fin 3) ℝ :=
  Matrix.of ![![Real.cos lon, Real.sin lon, 0], ![-Real.sin lon, Real.cos lon, 0], ![0, 0, 1]]

/-- Transpose of a 3×3 nested-list matrix (for the orthogonality property). -/
def transpose3 : List (List PyFloat) → List (List PyFloat)
  | [[a, b, c], [d, e, f], [g, h, i]] => [[a, d, g], [b, e, h], [c, f, i]]
  | m => m

/-- The 3×3 identity matrix as a nested list of Python floats. -/
def idPy3 : List (List PyFloat) :=
  [[some 1, some 0, some 0], [some 0, some 1, some 0], [some 0, some 0, some 1]]

/-! ### Basic computation lemmas for the float operations -/

@[simp] lemma pyAdd_some_some (a b : ℝ) : pyAdd (some a) (some b) = some (a + b) := rfl

@[simp] lemma pyAdd_none_left (b : PyFloat) : pyAdd none b = none := by cases b <;> rfl

@[simp] lemma pyAdd_none_right (a : PyFloat) : pyAdd a none = none := by cases a <;> rfl

@[simp] lemma pySub_some_some (a b : ℝ) : pySub (some a) (some b) = some (a - b) := rfl

@[simp] lemma pySub_none_left (b : PyFloat) : pySub none b = none := by cases b <;> rfl

@[simp] lemma pySub_none_right (a : PyFloat) : pySub a none = none := by cases a <;> rfl

@[simp] lemma pyMul_some_some (a b : ℝ) : pyMul (some a) (some b) = some (a * b) := rfl

@[simp] lemma pyMul_none_left (b : PyFloat) : pyMul none b = none := by cases b <;> rfl

@[simp] lemma pyMul_none_right (a : PyFloat) : pyMul a none = none := by cases a <;> rfl

@[simp] lemma pyNeg_some (a : ℝ) : pyNeg (some a) = some (-a) := rfl

@[simp] lemma pyNeg_none : pyNeg (none : PyFloat) = none := rfl

@[simp] lemma pyPow_some (a : ℝ) (n : Nat) : pyPow (some a) n = some (a ^ n) := rfl

@[simp] lemma pyPow_none_two : pyPow (none : PyFloat) 2 = none := rfl

@[simp] lemma pySin_some (a : ℝ) : pySin (some a) = some (Real.sin a) := rfl

@[simp] lemma pySin_none : pySin none = none := rfl

@[simp] lemma pyCos_some (a : ℝ) : pyCos (some a) = some (Real.cos a) := rfl

@[simp] lemma pyCos_none : pyCos none = none := rfl

@[simp] lemma pyAtan_some (a : ℝ) : pyAtan (some a) = some (Real.arctan a) := rfl

@[simp] lemma pyAtan_none : pyAtan none = none := rfl

@[simp] lemma pyAtan2_some_some (y x : ℝ) :
    pyAtan2 (some y) (some x) = some (Complex.arg ⟨x, y⟩) := rfl

@[simp] lemma pyAtan2_none_left (x : PyFloat) : pyAtan2 none x = none := by cases x <;> rfl

@[simp] lemma pyAtan2_none_right (y : PyFloat) : pyAtan2 y none = none := by cases y <;> rfl

@[simp] lemma pyDiv_none_right (a : PyFloat) : pyDiv a none = Except.ok none := rfl

lemma pyDiv_some_ne (a : PyFloat) (b : ℝ) (hb : b ≠ 0) :
    pyDiv a (some b) = Except.ok (Option.map (fun x => x / b) a) := by
  cases a <;> simp [pyDiv, hb]

lemma pyDiv_some_some (a b : ℝ) (hb : b ≠ 0) :
    pyDiv (some a) (some b) = Except.ok (some (a / b)) := by
  simp [pyDiv, hb]

lemma pyDiv_none_some (b : ℝ) (hb : b ≠ 0) :
    pyDiv none (some b) = Except.ok none := by
  simp [pyDiv, hb]

lemma pyDiv_zero (a : PyFloat) : pyDiv a (some 0) = Except.error PyErr.zeroDivisionError := by
  cases a <;> simp [pyDiv]

@[simp] lemma pySqrt_none : pySqrt none = Except.ok none := rfl

lemma pySqrt_some (a : ℝ) (h : 0 ≤ a) : pySqrt (some a) = Except.ok (some (Real.sqrt a)) := by
  simp [pySqrt, not_lt.mpr h]

@[simp] lemma pyAsin_none : pyAsin none = Except.ok none := rfl

lemma pyAsin_some (a : ℝ) (h : |a| ≤ 1) :
    pyAsin (some a) = Except.ok (some (Real.arcsin a)) := by
  simp [pyAsin, not_lt.mpr h]

/-- Evaluation of `matrix_multiply` on a 3×3 and a 3×1 matrix. -/
lemma mm_3x3_3x1 (a b c d e f g h i p q r : PyFloat) :
    matrix_multiply [[a, b, c], [d, e, f], [g, h, i]] [[p], [q], [r]] =
      Except.ok
        [[pyAdd (pyAdd (pyAdd (some 0) (pyMul a p)) (pyMul b q)) (pyMul c r)],
         [pyAdd (pyAdd (pyAdd (some 0) (pyMul d p)) (pyMul e q)) (pyMul f r)],
         [pyAdd (pyAdd (pyAdd (some 0) (pyMul g p)) (pyMul h q)) (pyMul i r)]] := rfl

/-- Evaluation of `matrix_multiply` on two 3×3 matrices. -/
lemma mm_3x3_3x3 (a b c d e f g h i p q r s t u v w x : PyFloat) :
    matrix_multiply [[a, b, c], [d, e, f], [g, h, i]] [[p, q, r], [s, t, u], [v, w, x]] =
      Except.ok
        [[pyAdd (pyAdd (pyAdd (some 0) (pyMul a p)) (pyMul b s)) (pyMul c v),
          pyAdd (pyAdd (pyAdd (some 0) (pyMul a q)) (pyMul b t)) (pyMul c w),
          pyAdd (pyAdd (pyAdd (some 0) (pyMul a r)) (pyMul b u)) (pyMul c x)],
         [pyAdd (pyAdd (pyAdd (some 0) (pyMul d p)) (pyMul e s)) (pyMul f v),
          pyAdd (pyAdd (pyAdd (some 0) (pyMul d q)) (pyMul e t)) (pyMul f w),
          pyAdd (pyAdd (pyAdd (some 0) (pyMul d r)) (pyMul e u)) (pyMul f x)],
         [pyAdd (pyAdd (pyAdd (some 0) (pyMul g p)) (pyMul h s)) (pyMul i v),
          pyAdd (pyAdd (pyAdd (some 0) (pyMul g q)) (pyMul h t)) (pyMul i w),
          pyAdd (pyAdd (pyAdd (some 0) (pyMul g r)) (pyMul h u)) (pyMul i x)]] := rfl

/-! ### Loop unfolding lemmas -/

lemma latLoop_zero (oz rl : PyFloat) (s : LatState) : latLoop oz rl 0 s = Except.ok s := rfl

lemma latLoop_succ_of_cond (oz rl : PyFloat) (fuel : Nat) (s : LatState) (h : loopCond s) :
    latLoop oz rl (fuel + 1) s = (latBody oz rl s).bind (latLoop oz rl fuel) := by
  rw [latLoop, if_pos h]

lemma latLoop_succ_of_not_cond (oz rl : PyFloat) (fuel : Nat) (s : LatState)
    (h : ¬ loopCond s) : latLoop oz rl (fuel + 1) s = Except.ok s := by
  rw [latLoop, if_neg h]

/-! ### Behaviour of the loop body -/

@[simp] lemma exc_bind_ok {α β : Type} (a : α) (f : α → Except PyErr β) :
    (Except.ok a : Except PyErr α) >>= f = f a := rfl

@[simp] lemma exc_bind_error {α β : Type} (e : PyErr) (f : α → Except PyErr β) :
    (Except.error e : Except PyErr α) >>= f = Except.error e := rfl

@[simp] lemma exc_bind_ok' {α β : Type} (a : α) (f : α → Except PyErr β) :
    Except.bind (Except.ok a) f = f a := rfl

@[simp] lemma exc_bind_error' {α β : Type} (e : PyErr) (f : α → Except PyErr β) :
    Except.bind (Except.error e) f = Except.error e := rfl

lemma E_E_sq_lt_one : E_E ^ 2 < 1 := by norm_num [E_E]

lemma one_sub_ee_sin_sq_pos (φ : ℝ) : 0 < 1 - E_E ^ 2 * Real.sin φ ^ 2 := by
  have h1 : Real.sin φ ^ 2 ≤ 1 := Real.sin_sq_le_one φ
  have h2 : (0 : ℝ) ≤ Real.sin φ ^ 2 := sq_nonneg _
  have hE : E_E ^ 2 < 1 := E_E_sq_lt_one
  have hE0 : (0 : ℝ) ≤ E_E ^ 2 := sq_nonneg _
  nlinarith

lemma sqrt_denom_ne_zero (φ : ℝ) : Real.sqrt (1 - E_E ^ 2 * Real.sin φ ^ 2) ≠ 0 :=
  ne_of_gt (Real.sqrt_pos.mpr (one_sub_ee_sin_sq_pos φ))

/-- The loop body on a finite latitude, finite `o_z` and nonzero finite
`r_lon`: it always succeeds and produces the arctan update. -/
lemma latBody_finite (c r : ℝ) (hr : r ≠ 0) (s : LatState) (φ : ℝ)
    (hφ : s.o_lat_rad = some φ) :
    latBody (some c) (some r) s =
      Except.ok
        ⟨some (Real.arctan ((c +
            R_E_KM / Real.sqrt (1 - E_E ^ 2 * Real.sin φ ^ 2) * E_E ^ 2 * Real.sin φ) / r)),
          some φ,
          some (R_E_KM / Real.sqrt (1 - E_E ^ 2 * Real.sin φ ^ 2)),
          s.count + 1⟩ := by
  have harg : (0 : ℝ) ≤ 1 - E_E ^ 2 * Real.sin φ ^ 2 := (one_sub_ee_sin_sq_pos φ).le
  have hD : Real.sqrt (1 - E_E ^ 2 * Real.sin φ ^ 2) ≠ 0 := sqrt_denom_ne_zero φ
  simp only [latBody, calc_denom, hφ, pySin_some, pyPow_some, pyMul_some_some,
    pySub_some_some, pySqrt_some _ harg, pyDiv_some_some _ _ hD, exc_bind_ok,
    pyAdd_some_some, pyDiv_some_some _ _ hr, pyAtan_some]

/-- The loop body on a NaN latitude (with a divisor that is NaN or a nonzero
real): it succeeds and keeps the latitude NaN. -/
lemma latBody_nan (oz rl : PyFloat)
    (hrl : rl = none ∨ ∃ r : ℝ, rl = some r ∧ r ≠ 0) (s : LatState)
    (h : s.o_lat_rad = none) :
    latBody oz rl s = Except.ok ⟨none, none, none, s.count + 1⟩ := by
  have hdiv : pyDiv (none : PyFloat) rl = Except.ok none := by
    rcases hrl with h1 | ⟨r, h1, h2⟩
    · rw [h1]; rfl
    · rw [h1]; exact pyDiv_none_some r h2
  simp only [latBody, calc_denom, h, pySin_none, pyPow_none_two, pyMul_none_right,
    pySub_none_right, pySqrt_none, exc_bind_ok, pyDiv_none_right, pyMul_none_left,
    pyAdd_none_right, hdiv, pyAtan_none]

lemma latBody_count (oz rl : PyFloat) (s s' : LatState)
    (h : latBody oz rl s = Except.ok s') : s'.count = s.count + 1 := by
  unfold latBody at h
  cases hd : calc_denom (some E_E) s.o_lat_rad with
  | error e => rw [hd] at h; simp only [exc_bind_error] at h; exact absurd h (by simp)
  | ok denom =>
    rw [hd] at h
    simp only [exc_bind_ok] at h
    cases hc : pyDiv (some R_E_KM) denom with
    | error e => rw [hc] at h; simp only [exc_bind_error] at h; exact absurd h (by simp)
    | ok cE =>
      rw [hc] at h
      simp only [exc_bind_ok] at h
      cases hq : pyDiv
          (pyAdd oz (pyMul (pyMul cE (pyPow (some E_E) 2)) (pySin s.o_lat_rad))) rl with
      | error e => rw [hq] at h; simp only [exc_bind_error] at h; exact absurd h (by simp)
      | ok quot =>
        rw [hq] at h
        simp only [exc_bind_ok, Except.ok.injEq] at h
        rw [← h]

/-! ### Behaviour of the loop -/

/-- Fuel beyond what `count < 5` allows is irrelevant: with enough fuel, the
loop computes the same result as with fuel `5 - count`. -/
lemma latLoop_eq_min5 (oz rl : PyFloat) :
    ∀ (fuel : Nat) (s : LatState), 5 ≤ fuel + s.count →
      latLoop oz rl fuel s = latLoop oz rl (5 - s.count) s := by
  intro fuel
  induction fuel with
  | zero =>
    intro s h
    have : 5 - s.count = 0 := by omega
    rw [this]
  | succ n ih =>
    intro s h
    by_cases hc : loopCond s
    · have hcount : s.count < 5 := hc.2
      have h5 : 5 - s.count = (4 - s.count) + 1 := by omega
      rw [latLoop_succ_of_cond _ _ _ _ hc, h5, latLoop_succ_of_cond _ _ _ _ hc]
      cases hb : latBody oz rl s with
      | error e => rfl
      | ok s1 =>
        simp only [exc_bind_ok']
        have hcnt : s1.count = s.count + 1 := latBody_count _ _ _ _ hb
        have h1 : latLoop oz rl n s1 = latLoop oz rl (5 - s1.count) s1 := by
          apply ih
          omega
        have h2 : 5 - s1.count = 4 - s.count := by omega
        rw [h1, h2]
    · rw [latLoop_succ_of_not_cond _ _ _ _ hc]
      rcases Nat.eq_zero_or_eq_succ_pred (5 - s.count) with h0 | hsucc
      · rw [h0, latLoop_zero]
      · rw [hsucc, latLoop_succ_of_not_cond _ _ _ _ hc]

/-- With a finite latitude, finite `o_z` and nonzero finite `r_lon`, the loop
always succeeds; the final latitude is finite, and is an `arctan` value
whenever at least one iteration has run. -/
lemma latLoop_finite_ok (c r : ℝ) (hr : r ≠ 0) :
    ∀ (fuel : Nat) (s : LatState) (φ : ℝ), s.o_lat_rad = some φ →
      ∃ s', latLoop (some c) (some r) fuel s = Except.ok s' ∧
        (∃ ψ, s'.o_lat_rad = some ψ) ∧
        (s' = s ∨ ∃ v, s'.o_lat_rad = some (Real.arctan v)) := by
  intro fuel
  induction fuel with
  | zero =>
    intro s φ hφ
    exact ⟨s, latLoop_zero _ _ s, ⟨φ, hφ⟩, Or.inl rfl⟩
  | succ n ih =>
    intro s φ hφ
    by_cases hc : loopCond s
    · rw [latLoop_succ_of_cond _ _ _ _ hc, latBody_finite c r hr s φ hφ]
      simp only [exc_bind_ok']
      obtain ⟨s', hs', ⟨ψ, hψ⟩, hdisj⟩ :=
        ih ⟨some (Real.arctan ((c +
              R_E_KM / Real.sqrt (1 - E_E ^ 2 * Real.sin φ ^ 2) * E_E ^ 2 * Real.sin φ) / r)),
            some φ, some (R_E_KM / Real.sqrt (1 - E_E ^ 2 * Real.sin φ ^ 2)), s.count + 1⟩
          (Real.arctan ((c +
              R_E_KM / Real.sqrt (1 - E_E ^ 2 * Real.sin φ ^ 2) * E_E ^ 2 * Real.sin φ) / r))
          rfl
      refine ⟨s', hs', ⟨ψ, hψ⟩, Or.inr ?_⟩
      rcases hdisj with heq | ⟨v, hv⟩
      · exact ⟨_, by rw [heq]⟩
      · exact ⟨v, hv⟩
    · exact ⟨s, latLoop_succ_of_not_cond _ _ _ _ hc, ⟨φ, hφ⟩, Or.inl rfl⟩

/-- With a finite latitude, fresh previous value (`NaN`), count below the cap
and at least one unit of fuel, the first iteration is forced, so the final
latitude is an `arctan` value. -/
lemma latLoop_first_step (c r : ℝ) (hr : r ≠ 0) (fuel : Nat) (s : LatState) (φ : ℝ)
    (hφ : s.o_lat_rad = some φ) (hprev : s.prev_lat_rad = none) (hcount : s.count < 5) :
    ∃ s' v, latLoop (some c) (some r) (fuel + 1) s = Except.ok s' ∧
      s'.o_lat_rad = some (Real.arctan v) := by
  have hc : loopCond s := ⟨Or.inl hprev, hcount⟩
  rw [latLoop_succ_of_cond _ _ _ _ hc, latBody_finite c r hr s φ hφ]
  simp only [exc_bind_ok']
  obtain ⟨s', hs', ⟨ψ, hψ⟩, hdisj⟩ :=
    latLoop_finite_ok c r hr fuel
      ⟨some (Real.arctan ((c +
          R_E_KM / Real.sqrt (1 - E_E ^ 2 * Real.sin φ ^ 2) * E_E ^ 2 * Real.sin φ) / r)),
        some φ, some (R_E_KM / Real.sqrt (1 - E_E ^ 2 * Real.sin φ ^ 2)), s.count + 1⟩
      (Real.arctan ((c +
          R_E_KM / Real.sqrt (1 - E_E ^ 2 * Real.sin φ ^ 2) * E_E ^ 2 * Real.sin φ) / r))
      rfl
  rcases hdisj with heq | ⟨v, hv⟩
  · exact ⟨s', _, hs', by rw [heq]⟩
  · exact ⟨s', v, hs', hv⟩

/-- With a NaN latitude (and a divisor that is NaN or a nonzero real), the
loop always succeeds and the latitude stays NaN. -/
lemma latLoop_nan (oz rl : PyFloat)
    (hrl : rl = none ∨ ∃ r : ℝ, rl = some r ∧ r ≠ 0) :
    ∀ (fuel : Nat) (s : LatState), s.o_lat_rad = none →
      ∃ s', latLoop oz rl fuel s = Except.ok s' ∧ s'.o_lat_rad = none := by
  intro fuel
  induction fuel with
  | zero => intro s h; exact ⟨s, latLoop_zero _ _ s, h⟩
  | succ n ih =>
    intro s h
    by_cases hc : loopCond s
    · rw [latLoop_succ_of_cond _ _ _ _ hc, latBody_nan oz rl hrl s h]
      simp only [exc_bind_ok']
      exact ih _ rfl
    · exact ⟨s, latLoop_succ_of_not_cond _ _ _ _ hc, h⟩

/-! ### Indexing lemmas -/

@[simp] lemma pyIndex_cons_zero {α : Type} (a : α) (l : List α) :
    pyIndex (a :: l) 0 = Except.ok a := rfl

@[simp] lemma pyIndex_cons_succ {α : Type} (a : α) (l : List α) (n : Nat) :
    pyIndex (a :: l) (n + 1) = pyIndex l n := rfl

@[simp] lemma pyIndex_nil {α : Type} (n : Nat) :
    pyIndex ([] : List α) n = Except.error PyErr.indexError := by
  cases n <;> rfl

lemma pyIndex_ok_of_lt {α : Type} (l : List α) (i : Nat) (h : i < l.length) :
    pyIndex l i = Except.ok (l.get ⟨i, h⟩) := by
  unfold pyIndex
  rw [List.get?_eq_get h]

/-- If any component of the relative vector is NaN, every component of the
SEZ output is NaN (because each accumulated row sum touches every component,
and `0 * NaN = NaN`), and no exception is raised. -/
lemma sez_transform_nan (lat lon ox oy oz x y z : PyFloat)
    (h : pySub x ox = none ∨ pySub y oy = none ∨ pySub z oz = none) :
    sez_transform lat lon ox oy oz x y z = Except.ok (none, none, none) := by
  rcases h with h | h | h <;>
    simp only [sez_transform, Rzinv_mat, Ryinv_mat, h, mm_3x3_3x1, exc_bind_ok,
      pyMul_none_right, pyMul_none_left, pyAdd_none_right, pyAdd_none_left,
      pyIndex_cons_zero, pyIndex_cons_succ]

/-! ### Arctangent estimates -/

lemma arctan_nonneg {x : ℝ} (h : 0 ≤ x) : 0 ≤ Real.arctan x := by
  have := Real.arctan_strictMono.monotone h
  rwa [Real.arctan_zero] at this

lemma arctan_le_self_of_nonneg {u : ℝ} (h : 0 ≤ u) : Real.arctan u ≤ u := by
  rcases eq_or_lt_of_le h with h0 | h0
  · rw [← h0, Real.arctan_zero]
  · have h1 : 0 < Real.arctan u := by
      have := Real.arctan_strictMono h0
      rwa [Real.arctan_zero] at this
    have h2 := Real.lt_tan h1 (Real.arctan_lt_pi_div_two u)
    rw [Real.tan_arctan] at h2
    exact h2.le

/-- The subtraction identity `arctan a − arctan b = arctan ((a−b)/(1+ab))`
for nonnegative arguments. -/
lemma arctan_sub_arctan (a b : ℝ) (ha : 0 ≤ a) (hb : 0 ≤ b) :
    Real.arctan a - Real.arctan b = Real.arctan ((a - b) / (1 + a * b)) := by
  have hab : (0 : ℝ) < 1 + a * b := by positivity
  have hA0 : 0 ≤ Real.arctan a := arctan_nonneg ha
  have hB0 : 0 ≤ Real.arctan b := arctan_nonneg hb
  have hA : Real.arctan a < Real.pi / 2 := Real.arctan_lt_pi_div_two a
  have hB : Real.arctan b < Real.pi / 2 := Real.arctan_lt_pi_div_two b
  have hsa : (0 : ℝ) < Real.sqrt (1 + a ^ 2) := Real.sqrt_pos.mpr (by positivity)
  have hsb : (0 : ℝ) < Real.sqrt (1 + b ^ 2) := Real.sqrt_pos.mpr (by positivity)
  have hlo : -(Real.pi / 2) < Real.arctan a - Real.arctan b := by linarith
  have hhi : Real.arctan a - Real.arctan b < Real.pi / 2 := by linarith
  have hcos : Real.cos (Real.arctan a - Real.arctan b) =
      (1 + a * b) / (Real.sqrt (1 + a ^ 2) * Real.sqrt (1 + b ^ 2)) := by
    rw [Real.cos_sub, Real.cos_arctan, Real.sin_arctan, Real.cos_arctan, Real.sin_arctan]
    field_simp
  have hsin : Real.sin (Real.arctan a - Real.arctan b) =
      (a - b) / (Real.sqrt (1 + a ^ 2) * Real.sqrt (1 + b ^ 2)) := by
    rw [Real.sin_sub, Real.cos_arctan, Real.sin_arctan, Real.cos_arctan, Real.sin_arctan]
    field_simp
  have htan : Real.tan (Real.arctan a - Real.arctan b) = (a - b) / (1 + a * b) := by
    rw [Real.tan_eq_sin_div_cos, hsin, hcos]
    have hS : Real.sqrt (1 + a ^ 2) * Real.sqrt (1 + b ^ 2) ≠ 0 := by positivity
    field_simp
  rw [← htan, Real.arctan_tan hlo hhi]

/-- If `2e-6·(1+ab) ≤ a − b` (with `0 ≤ b ≤ a`) then the arctangents are
more than `10e-7` apart. -/
lemma arctan_gap (a b : ℝ) (hb : 0 ≤ b) (hba : b ≤ a)
    (h : (2e-6 : ℝ) * (1 + a * b) ≤ a - b) :
    (10e-7 : ℝ) < Real.arctan a - Real.arctan b := by
  have ha : 0 ≤ a := hb.trans hba
  have hab : (0 : ℝ) < 1 + a * b := by positivity
  have hu : (2e-6 : ℝ) ≤ (a - b) / (1 + a * b) := (le_div_iff hab).mpr h
  have hmono : Real.arctan (2e-6 : ℝ) ≤ Real.arctan ((a - b) / (1 + a * b)) :=
    Real.arctan_strictMono.monotone hu
  have hpos : (0 : ℝ) < Real.arctan (2e-6 : ℝ) := by
    have := Real.arctan_strictMono (show (0 : ℝ) < 2e-6 by norm_num)
    rwa [Real.arctan_zero] at this
  have hsin := Real.sin_lt hpos
  rw [Real.sin_arctan] at hsin
  have hsq : Real.sqrt (1 + (2e-6 : ℝ) ^ 2) < 2 := by
    rw [show (2 : ℝ) = Real.sqrt 4 by
      rw [show (4 : ℝ) = 2 ^ 2 by norm_num, Real.sqrt_sq (by norm_num : (0:ℝ) ≤ 2)]]
    exact Real.sqrt_lt_sqrt (by positivity) (by norm_num)
  have hlow : (10e-7 : ℝ) < (2e-6 : ℝ) / Real.sqrt (1 + (2e-6 : ℝ) ^ 2) := by
    rw [lt_div_iff (Real.sqrt_pos.mpr (by positivity))]
    nlinarith
  rw [arctan_sub_arctan a b ha hb]
  linarith

/-- If `a − b ≤ 10e-7` (with `0 ≤ b ≤ a`) then the arctangents are within
`10e-7` of each other. -/
lemma arctan_close (a b : ℝ) (hb : 0 ≤ b) (hba : b ≤ a) (h : a - b ≤ (10e-7 : ℝ)) :
    |Real.arctan a - Real.arctan b| ≤ (10e-7 : ℝ) := by
  have ha : 0 ≤ a := hb.trans hba
  have hab : (1 : ℝ) ≤ 1 + a * b := by nlinarith
  have hd : 0 ≤ Real.arctan a - Real.arctan b := by
    have := Real.arctan_strictMono.monotone hba
    linarith
  have hu0 : (0 : ℝ) ≤ (a - b) / (1 + a * b) := div_nonneg (by linarith) (by linarith)
  have hu : (a - b) / (1 + a * b) ≤ a - b := div_le_self (by linarith) hab
  have hle : Real.arctan ((a - b) / (1 + a * b)) ≤ (a - b) / (1 + a * b) :=
    arctan_le_self_of_nonneg hu0
  rw [abs_of_nonneg hd, arctan_sub_arctan a b ha hb]
  linarith

/-! ### Interval-arithmetic helpers -/

lemma sqrt_interval {x lo hi : ℝ} (h3 : 0 ≤ hi) (h1 : lo ^ 2 ≤ x) (h2 : x ≤ hi ^ 2) :
    lo ≤ Real.sqrt x ∧ Real.sqrt x ≤ hi :=
  ⟨Real.le_sqrt_of_sq_le h1, (Real.sqrt_le_left h3).mpr h2⟩

/-- Bounds on `c / b` for a constant `c ≥ 0` and a positive interval for `b`. -/
lemma cdiv_interval {c b lb hb : ℝ} (hc : 0 ≤ c) (h0 : 0 < lb) (h1 : lb ≤ b) (h2 : b ≤ hb) :
    c / hb ≤ c / b ∧ c / b ≤ c / lb := by
  have hb0 : 0 < b := h0.trans_le h1
  constructor <;> gcongr

/-- Bounds on `c / b` for a constant `c ≤ 0` and a positive interval for `b`. -/
lemma cdiv_interval_neg {c b lb hb : ℝ} (hc : c ≤ 0) (h0 : 0 < lb) (h1 : lb ≤ b) (h2 : b ≤ hb) :
    c / lb ≤ c / b ∧ c / b ≤ c / hb := by
  have hb0 : 0 < b := h0.trans_le h1
  have hhb : 0 < hb := hb0.trans_le h2
  constructor
  · rw [div_le_div_iff h0 hb0]
    nlinarith
  · rw [div_le_div_iff hb0 hhb]
    nlinarith

/-- Bounds on `a / b` for nonnegative intervals. -/
lemma div_interval {a b la ha lb hb : ℝ} (hla : 0 ≤ la) (h1 : la ≤ a) (h2 : a ≤ ha)
    (h0 : 0 < lb) (h3 : lb ≤ b) (h4 : b ≤ hb) :
    la / hb ≤ a / b ∧ a / b ≤ ha / lb := by
  have hb0 : 0 < b := h0.trans_le h3
  have hhb : 0 < hb := hb0.trans_le h4
  constructor
  · rw [div_le_div_iff hhb hb0]
    nlinarith
  · rw [div_le_div_iff hb0 h0]
    nlinarith

/-- Bounds on `a * b` for nonnegative intervals. -/
lemma mul_interval {a b la ha lb hb : ℝ} (hla : 0 ≤ la) (h1 : la ≤ a) (h2 : a ≤ ha)
    (hlb : 0 ≤ lb) (h3 : lb ≤ b) (h4 : b ≤ hb) :
    la * lb ≤ a * b ∧ a * b ≤ ha * hb := by
  constructor <;> nlinarith

/-! ### `mapM` / `foldlM` success lemmas -/

lemma foldlM_ok {β : Type} (f : β → Nat → Except PyErr β) :
    ∀ (l : List Nat) (b : β), (∀ (b' : β) (k : Nat), k ∈ l → ∃ c, f b' k = Except.ok c) →
      ∃ c, l.foldlM f b = Except.ok c := by
  intro l
  induction l with
  | nil => intro b _; exact ⟨b, rfl⟩
  | cons a t ih =>
    intro b h
    obtain ⟨c, hc⟩ := h b a (List.mem_cons_self a t)
    rw [List.foldlM_cons, hc]
    simp only [exc_bind_ok]
    exact ih c (fun b' k hk => h b' k (List.mem_cons_of_mem _ hk))

lemma mapM_ok {α β : Type} (f : α → Except PyErr β) :
    ∀ l : List α, (∀ a ∈ l, ∃ b, f a = Except.ok b) →
      ∃ r, l.mapM f = Except.ok r ∧ r.length = l.length ∧
        ∀ b ∈ r, ∃ a ∈ l, f a = Except.ok b := by
  intro l
  induction l with
  | nil => intro _; exact ⟨[], rfl, rfl, by simp⟩
  | cons a t ih =>
    intro h
    obtain ⟨b, hb⟩ := h a (List.mem_cons_self a t)
    obtain ⟨r, hr, hlen, hmem⟩ := ih (fun x hx => h x (List.mem_cons_of_mem _ hx))
    refine ⟨b :: r, ?_, by simp [hlen], ?_⟩
    · rw [List.mapM_cons, hb, hr]
      rfl
    · intro b' hb'
      rcases List.mem_cons.mp hb' with h1 | h1
      · exact ⟨a, List.mem_cons_self a t, h1 ▸ hb⟩
      · obtain ⟨x, hx, hfx⟩ := hmem b' h1
        exact ⟨x, List.mem_cons_of_mem _ hx, hfx⟩

/-! ### Claims -/

/-- Claim C4: the loop guard uses the literal tolerance `10e-7` and caps at 5
iterations.  With the actual initial state (`count = 0`, previous latitude
NaN), any fuel `≥ 5` computes the same result as fuel 5 (the loop always
terminates within at most 5 iterations) and the first iteration is always
executed; a state whose latitude moved by at most `10e-7` stops the loop, as
does a state whose count has reached 5. -/
theorem latLoop_termination (oz rl : PyFloat) (s t u : LatState) (fuel f2 f3 : Nat)
    (hfuel : 5 ≤ fuel) (hc0 : s.count = 0) (hprev : s.prev_lat_rad = none)
    (p l : ℝ) (htp : t.prev_lat_rad = some p) (htl : t.o_lat_rad = some l)
    (hsmall : |l - p| ≤ 10e-7) (hu : 5 ≤ u.count) :
    latLoop oz rl fuel s = latLoop oz rl 5 s ∧
    latLoop oz rl fuel s = (latBody oz rl s).bind (latLoop oz rl (fuel - 1)) ∧
    latLoop oz rl (f2 + 1) t = Except.ok t ∧
    latLoop oz rl (f3 + 1) u = Except.ok u := by
  have hcond : loopCond s := ⟨Or.inl hprev, by omega⟩
  refine ⟨?_, ?_, ?_, ?_⟩
  · rw [latLoop_eq_min5 oz rl fuel s (by omega), latLoop_eq_min5 oz rl 5 s (by omega)]
  · obtain ⟨n, rfl⟩ : ∃ n, fuel = n + 1 := ⟨fuel - 1, by omega⟩
    rw [latLoop_succ_of_cond _ _ _ _ hcond]
    rfl
  · apply latLoop_succ_of_not_cond
    intro hcondt
    rcases hcondt.1 with hbad | ⟨d, hd, hdgt⟩
    · rw [htp] at hbad; exact Option.noConfusion hbad
    · rw [htl, htp] at hd
      simp only [pySub_some_some, Option.some.injEq] at hd
      rw [← hd] at hdgt
      linarith
  · apply latLoop_succ_of_not_cond
    intro hcondu
    exact absurd hcondu.2 (by omega)

/-- Claim C4 witness. -/
theorem latLoop_termination_witness :
    |(1 : ℝ) - 1| ≤ 10e-7 ∧
    (latLoop (some 1) (some 1) 5 ⟨some 1, none, none, 0⟩ =
        latLoop (some 1) (some 1) 5 ⟨some 1, none, none, 0⟩ ∧
      latLoop (some 1) (some 1) 5 ⟨some 1, none, none, 0⟩ =
        (latBody (some 1) (some 1) ⟨some 1, none, none, 0⟩).bind
          (latLoop (some 1) (some 1) (5 - 1)) ∧
      latLoop (some 1) (some 1) (0 + 1) ⟨some 1, some 1, none, 0⟩ =
        Except.ok ⟨some 1, some 1, none, 0⟩ ∧
      latLoop (some 1) (some 1) (0 + 1) ⟨none, none, none, 5⟩ =
        Except.ok ⟨none, none, none, 5⟩) :=
  ⟨by norm_num,
    latLoop_termination (some 1) (some 1) ⟨some 1, none, none, 0⟩ ⟨some 1, some 1, none, 0⟩
      ⟨none, none, none, 5⟩ 5 0 0 (by norm_num) rfl rfl 1 1 rfl rfl (by norm_num)
      (by norm_num)⟩

/-- Claim C6: for nonempty rectangular matrices, the generic multiply raises
the dimension-mismatch `ValueError` exactly when the column count of the
first matrix differs from the row count of the second, and otherwise
succeeds with a result of shape `rows(A) × cols(B)`. -/
theorem matrix_multiply_spec (m1 m2 : List (List PyFloat)) (r1 r2 : List PyFloat)
    (h1 : m1.head? = some r1) (h2 : m2.head? = some r2)
    (hrect1 : ∀ r ∈ m1, r.length = r1.length)
    (hrect2 : ∀ r ∈ m2, r.length = r2.length) :
    (r1.length ≠ m2.length →
      matrix_multiply m1 m2 = Except.error (PyErr.valueError mmErrMsg)) ∧
    (r1.length = m2.length →
      ∃ res, matrix_multiply m1 m2 = Except.ok res ∧
        res.length = m1.length ∧ ∀ r ∈ res, r.length = r2.length) := by
  cases m1 with
  | nil => exact absurd h1 (by simp)
  | cons a1 t1 =>
  cases m2 with
  | nil => exact absurd h2 (by simp)
  | cons a2 t2 =>
  simp only [List.head?_cons, Option.some.injEq] at h1 h2
  subst a1
  subst a2
  constructor
  · intro hne
    simp only [matrix_multiply, pyIndex_cons_zero, exc_bind_ok]
    rw [if_pos hne]
  · intro heq
    simp only [matrix_multiply, pyIndex_cons_zero, exc_bind_ok]
    rw [if_neg (by simpa using heq)]
    have hinner : ∀ i, i < (r1 :: t1).length →
        ∃ row, (List.range r2.length).mapM (fun j =>
            (List.range r1.length).foldlM (fun acc k => do
              let rowi ← pyIndex (r1 :: t1) i
              let a ← pyIndex rowi k
              let rowk ← pyIndex (r2 :: t2) k
              let b ← pyIndex rowk j
              Except.ok (pyAdd acc (pyMul a b))) (some 0 : PyFloat)) = Except.ok row ∧
          row.length = r2.length := by
      intro i hi
      have hsucc : ∀ j ∈ List.range r2.length,
          ∃ b, (List.range r1.length).foldlM (fun acc k => do
              let rowi ← pyIndex (r1 :: t1) i
              let a ← pyIndex rowi k
              let rowk ← pyIndex (r2 :: t2) k
              let b ← pyIndex rowk j
              Except.ok (pyAdd acc (pyMul a b))) (some 0 : PyFloat) = Except.ok b := by
        intro j hj
        have hj' : j < r2.length := List.mem_range.mp hj
        apply foldlM_ok
        intro acc k hk
        have hk1 : k < r1.length := List.mem_range.mp hk
        have hkm2 : k < (r2 :: t2).length := heq ▸ hk1
        have hleni : ((r1 :: t1).get ⟨i, hi⟩).length = r1.length :=
          hrect1 _ (List.get_mem _ _ _)
        have hk_rowi : k < ((r1 :: t1).get ⟨i, hi⟩).length := hleni ▸ hk1
        have hlenk : ((r2 :: t2).get ⟨k, hkm2⟩).length = r2.length :=
          hrect2 _ (List.get_mem _ _ _)
        have hj_rowk : j < ((r2 :: t2).get ⟨k, hkm2⟩).length := hlenk ▸ hj'
        refine ⟨pyAdd acc (pyMul (((r1 :: t1).get ⟨i, hi⟩).get ⟨k, hk_rowi⟩)
          (((r2 :: t2).get ⟨k, hkm2⟩).get ⟨j, hj_rowk⟩)), ?_⟩
        rw [pyIndex_ok_of_lt _ _ hi]
        simp only [exc_bind_ok]
        rw [pyIndex_ok_of_lt _ _ hk_rowi]
        simp only [exc_bind_ok]
        rw [pyIndex_ok_of_lt _ _ hkm2]
        simp only [exc_bind_ok]
        rw [pyIndex_ok_of_lt _ _ hj_rowk]
        simp only [exc_bind_ok]
      obtain ⟨row, hrow, hlen, _⟩ := mapM_ok _ (List.range r2.length) hsucc
      exact ⟨row, hrow, by simpa using hlen⟩
    obtain ⟨res, hres, hreslen, hresmem⟩ := mapM_ok _ (List.range (r1 :: t1).length)
      (fun i hi =>
        let ⟨row, h, _⟩ := hinner i (List.mem_range.mp hi)
        ⟨row, h⟩)
    refine ⟨res, hres, by simpa using hreslen, ?_⟩
    intro r hr
    obtain ⟨i, hi, hFi⟩ := hresmem r hr
    obtain ⟨row, hrow, hlen⟩ := hinner i (List.mem_range.mp hi)
    have : row = r := by
      have h12 := hrow.symm.trans hFi
      exact Except.ok.inj h12
    rw [← this]
    exact hlen

/-- Claim C6 witness. -/
theorem matrix_multiply_spec_witness :
    ([[some 1, some 2]] : List (List PyFloat)).head? = some [some 1, some 2] ∧
    ([[some 3], [some 4]] : List (List PyFloat)).head? = some [some 3] ∧
    (([some 1, some 2] : List PyFloat).length ≠ ([[some 5]] : List (List PyFloat)).length →
      matrix_multiply [[some 1, some 2]] [[some 5]] =
        Except.error (PyErr.valueError mmErrMsg)) ∧
    (([some 1, some 2] : List PyFloat).length = ([[some 3], [some 4]] : List (List PyFloat)).length →
      ∃ res, matrix_multiply [[some 1, some 2]] [[some 3], [some 4]] = Except.ok res ∧
        res.length = ([[some 1, some 2]] : List (List PyFloat)).length ∧
        ∀ r ∈ res, r.length = ([some 3] : List PyFloat).length) := by
  refine ⟨rfl, rfl, ?_, ?_⟩
  · exact (matrix_multiply_spec [[some 1, some 2]] [[some 5]] [some 1, some 2] [some 5]
      rfl rfl (by simp) (by simp)).1
  · exact (matrix_multiply_spec [[some 1, some 2]] [[some 3], [some 4]] [some 1, some 2]
      [some 3] rfl rfl (by simp) (by simp)).2

/-- Claim C10: an empty matrix on either side makes `matrix_multiply` fail
with `IndexError` (from `matrix[0]`) before the dimension check runs, so the
dimension-mismatch `ValueError` is never produced for empty inputs. -/
theorem matrix_multiply_empty (m1 m2 : List (List PyFloat)) (h : m1 = [] ∨ m2 = []) :
    matrix_multiply m1 m2 = Except.error PyErr.indexError := by
  rcases h with h | h
  · subst h
    simp [matrix_multiply]
  · subst h
    cases m1 with
    | nil => simp [matrix_multiply]
    | cons a t => simp [matrix_multiply]

/-- Claim C10 witness. -/
theorem matrix_multiply_empty_witness :
    (([] : List (List PyFloat)) = [] ∨ ([[some 1]] : List (List PyFloat)) = []) ∧
    matrix_multiply [] [[some 1]] = Except.error PyErr.indexError :=
  ⟨Or.inl rfl, matrix_multiply_empty [] [[some 1]] (Or.inl rfl)⟩

/-- Claim C8: for every (finite) latitude and longitude, the rotation
matrices built by the transform are orthogonal: the transpose times the
matrix itself is the 3×3 identity. -/
theorem rotation_orthogonal (lat lon : ℝ) :
    matrix_multiply (transpose3 (Ryinv_mat (some lat))) (Ryinv_mat (some lat)) =
      Except.ok idPy3 ∧
    matrix_multiply (transpose3 (Rzinv_mat (some lon))) (Rzinv_mat (some lon)) =
      Except.ok idPy3 := by
  constructor
  · simp only [Ryinv_mat, pySin_some, pyCos_some, pyNeg_some, transpose3, mm_3x3_3x3,
      pyMul_some_some, pyAdd_some_some, idPy3, Except.ok.injEq, List.cons.injEq,
      Option.some.injEq, and_true]
    repeat' apply And.intro
    all_goals first
      | ring1
      | linear_combination Real.sin_sq_add_cos_sq lat
  · simp only [Rzinv_mat, pySin_some, pyCos_some, pyNeg_some, transpose3, mm_3x3_3x3,
      pyMul_some_some, pyAdd_some_some, idPy3, Except.ok.injEq, List.cons.injEq,
      Option.some.injEq, and_true]
    repeat' apply And.intro
    all_goals first
      | ring1
      | linear_combination Real.sin_sq_add_cos_sq lon

/-- Claim C3: on finite inputs, the SEZ result of the transform is exactly
`Ry⁻¹(lat) · (Rz⁻¹(lon) · (target − origin))` with the spec's matrices,
applied in that order, its components 0, 1, 2 in order. -/
theorem sez_transform_eq_spec (lat lon ox oy oz x y z : ℝ) :
    sez_transform (some lat) (some lon) (some ox) (some oy) (some oz)
        (some x) (some y) (some z) =
      Except.ok
        (some ((RyinvSpec lat).mulVec ((RzinvSpec lon).mulVec ![x - ox, y - oy, z - oz]) 0),
         some ((RyinvSpec lat).mulVec ((RzinvSpec lon).mulVec ![x - ox, y - oy, z - oz]) 1),
         some ((RyinvSpec lat).mulVec ((RzinvSpec lon).mulVec ![x - ox, y - oy, z - oz]) 2)) := by
  simp only [sez_transform, Rzinv_mat, Ryinv_mat, pySub_some_some, pySin_some, pyCos_some,
    pyNeg_some, mm_3x3_3x1, exc_bind_ok, pyMul_some_some, pyAdd_some_some,
    pyIndex_cons_zero, pyIndex_cons_succ]
  simp only [RyinvSpec, RzinvSpec, Matrix.mulVec, Matrix.dotProduct, Fin.sum_univ_three,
    Matrix.of_apply, Matrix.cons_val', Matrix.cons_val_zero, Matrix.empty_val',
    Matrix.cons_val_fin_one, Matrix.cons_val_one, Matrix.head_cons, Matrix.head_fin_const,
    Matrix.cons_val_two, Matrix.tail_cons, Prod.mk.injEq, Option.some.injEq,
    Except.ok.injEq]
  refine ⟨?_, ?_, ?_⟩ <;> ring

/-- Claim C7: when the target equals the origin, the transform returns the
zero SEZ vector, for every geodetic coordinate of the origin. -/
theorem sez_transform_zero (lat lon a b c : ℝ) :
    sez_transform (some lat) (some lon) (some a) (some b) (some c)
        (some a) (some b) (some c) =
      Except.ok (some 0, some 0, some 0) := by
  simp only [sez_transform, Rzinv_mat, Ryinv_mat, pySub_some_some, pySin_some, pyCos_some,
    pyNeg_some, mm_3x3_3x1, exc_bind_ok, pyMul_some_some, pyAdd_some_some,
    pyIndex_cons_zero, pyIndex_cons_succ, Prod.mk.injEq, Option.some.injEq,
    Except.ok.injEq, sub_self]
  refine ⟨?_, ?_, ?_⟩ <;> ring

/-- On a finite, non-degenerate origin the geodetic solve succeeds, the
longitude is `atan2(o_y, o_x)` and the final latitude is an arctan value. -/
lemma geodetic_solve_finite_ok (a b c : ℝ) (h : ¬(a = 0 ∧ b = 0)) :
    ∃ (st : LatState) (v : ℝ),
      geodetic_solve (some a) (some b) (some c) =
        Except.ok (st, some (Complex.arg ⟨a, b⟩)) ∧
      st.o_lat_rad = some (Real.arctan v) := by
  have hab : 0 < a ^ 2 + b ^ 2 := by
    rcases not_and_or.mp h with ha | hb
    · have h2 : 0 < |a| := abs_pos.mpr ha
      nlinarith [sq_nonneg b, sq_abs a, pow_pos h2 2]
    · have h2 : 0 < |b| := abs_pos.mpr hb
      nlinarith [sq_nonneg a, sq_abs b, pow_pos h2 2]
  have hS : 0 < a ^ 2 + b ^ 2 + c ^ 2 := by nlinarith [sq_nonneg c]
  have hsqS : Real.sqrt (a ^ 2 + b ^ 2 + c ^ 2) ≠ 0 := ne_of_gt (Real.sqrt_pos.mpr hS)
  have hr : Real.sqrt (a ^ 2 + b ^ 2) ≠ 0 := ne_of_gt (Real.sqrt_pos.mpr hab)
  have hdom : |c / Real.sqrt (a ^ 2 + b ^ 2 + c ^ 2)| ≤ 1 := by
    rw [abs_div, abs_of_nonneg (Real.sqrt_nonneg _), div_le_one (Real.sqrt_pos.mpr hS)]
    calc |c| = Real.sqrt (c ^ 2) := (Real.sqrt_sq_eq_abs c).symm
      _ ≤ Real.sqrt (a ^ 2 + b ^ 2 + c ^ 2) :=
        Real.sqrt_le_sqrt (by nlinarith [sq_nonneg a, sq_nonneg b])
  obtain ⟨st, v, hloop, hlat⟩ := latLoop_first_step c (Real.sqrt (a ^ 2 + b ^ 2)) hr 4
    ⟨some (Real.arcsin (c / Real.sqrt (a ^ 2 + b ^ 2 + c ^ 2))), none, none, 0⟩
    (Real.arcsin (c / Real.sqrt (a ^ 2 + b ^ 2 + c ^ 2))) rfl rfl (by norm_num)
  have hloop5 : latLoop (some c) (some (Real.sqrt (a ^ 2 + b ^ 2))) 5
      ⟨some (Real.arcsin (c / Real.sqrt (a ^ 2 + b ^ 2 + c ^ 2))), none, none, 0⟩ =
      Except.ok st := hloop
  refine ⟨st, v, ?_, hlat⟩
  simp only [geodetic_solve, pyAtan2_some_some, pyPow_some, pyAdd_some_some]
  rw [pySqrt_some _ (by positivity)]
  simp only [exc_bind_ok]
  rw [pyDiv_some_some _ _ hsqS]
  simp only [exc_bind_ok]
  rw [pyAsin_some _ hdom]
  simp only [exc_bind_ok]
  rw [pySqrt_some _ (by positivity)]
  simp only [exc_bind_ok]
  rw [hloop5]
  simp only [exc_bind_ok]

/-- Claim C5: for a finite origin that is neither the zero vector nor at a
pole (equivalently `¬(o_x = 0 ∧ o_y = 0)`), the geodetic solve succeeds and
returns a longitude in `(-π, π]` and a latitude in the open interval
`(-π/2, π/2)`. -/
theorem geodetic_solve_ranges (a b c : ℝ) (h : ¬(a = 0 ∧ b = 0)) :
    ∃ (st : LatState) (L φ : ℝ),
      geodetic_solve (some a) (some b) (some c) = Except.ok (st, some L) ∧
      st.o_lat_rad = some φ ∧
      -Real.pi < L ∧ L ≤ Real.pi ∧ -(Real.pi / 2) < φ ∧ φ < Real.pi / 2 := by
  obtain ⟨st, v, hsolve, hlat⟩ := geodetic_solve_finite_ok a b c h
  exact ⟨st, Complex.arg ⟨a, b⟩, Real.arctan v, hsolve, hlat, Complex.neg_pi_lt_arg _,
    Complex.arg_le_pi _, Real.neg_pi_div_two_lt_arctan v, Real.arctan_lt_pi_div_two v⟩

/-- Claim C5 witness. -/
theorem geodetic_solve_ranges_witness :
    ¬((1 : ℝ) = 0 ∧ (0 : ℝ) = 0) ∧
    ∃ (st : LatState) (L φ : ℝ),
      geodetic_solve (some 1) (some 0) (some 0) = Except.ok (st, some L) ∧
      st.o_lat_rad = some φ ∧
      -Real.pi < L ∧ L ≤ Real.pi ∧ -(Real.pi / 2) < φ ∧ φ < Real.pi / 2 :=
  ⟨by norm_num, geodetic_solve_ranges 1 0 0 (by norm_num)⟩

/-- On an origin containing a NaN component (and not `o_x = o_y = 0`), the
geodetic solve succeeds and the final latitude is NaN. -/
lemma geodetic_solve_nan (ox oy oz : PyFloat)
    (hnan : ox = none ∨ oy = none ∨ oz = none)
    (hxy : ¬(ox = some 0 ∧ oy = some 0)) :
    ∃ (st : LatState) (lon : PyFloat),
      geodetic_solve ox oy oz = Except.ok (st, lon) ∧ st.o_lat_rad = none := by
  have hsum : pyAdd (pyAdd (pyPow ox 2) (pyPow oy 2)) (pyPow oz 2) = none := by
    rcases hnan with h | h | h <;> subst h <;>
      simp [pyPow_none_two, pyAdd_none_left, pyAdd_none_right]
  have hrl : ∃ rl, pySqrt (pyAdd (pyPow ox 2) (pyPow oy 2)) = Except.ok rl ∧
      (rl = none ∨ ∃ r : ℝ, rl = some r ∧ r ≠ 0) := by
    cases hx : ox with
    | none => exact ⟨none, by simp [pyPow_none_two, pyAdd_none_left], Or.inl rfl⟩
    | some a =>
      cases hy : oy with
      | none => exact ⟨none, by simp [pyPow_none_two, pyAdd_none_right], Or.inl rfl⟩
      | some b =>
        have hab : ¬(a = 0 ∧ b = 0) := by
          intro ⟨ha, hb⟩
          exact hxy ⟨by rw [hx, ha], by rw [hy, hb]⟩
        have hpos : 0 < a ^ 2 + b ^ 2 := by
          rcases not_and_or.mp hab with ha | hb
          · have h2 : 0 < |a| := abs_pos.mpr ha
            nlinarith [sq_nonneg b, sq_abs a, pow_pos h2 2]
          · have h2 : 0 < |b| := abs_pos.mpr hb
            nlinarith [sq_nonneg a, sq_abs b, pow_pos h2 2]
        refine ⟨some (Real.sqrt (a ^ 2 + b ^ 2)), ?_, Or.inr ⟨_, rfl,
          ne_of_gt (Real.sqrt_pos.mpr hpos)⟩⟩
        simp only [pyPow_some, pyAdd_some_some]
        exact pySqrt_some _ hpos.le
  obtain ⟨rl, hrlEq, hrlOk⟩ := hrl
  obtain ⟨st, hst, hstlat⟩ := latLoop_nan oz rl hrlOk 5 ⟨none, none, none, 0⟩ rfl
  refine ⟨st, pyAtan2 oy ox, ?_, hstlat⟩
  simp only [geodetic_solve, hsum, pySqrt_none, exc_bind_ok, pyDiv_none_right, pyAsin_none]
  rw [hrlEq]
  simp only [exc_bind_ok]
  rw [hst]
  simp only [exc_bind_ok]

/-- Claim C9 (amended): a NaN among the six inputs is accepted and, provided
the origin's x and y entries are not both (finite) zero, no exception is
raised: the NaN propagates and all three printed SEZ components are NaN. -/
theorem runScript_nan (ox oy oz x y z : PyFloat)
    (hnan : ox = none ∨ oy = none ∨ oz = none ∨ x = none ∨ y = none ∨ z = none)
    (hxy : ¬(ox = some 0 ∧ oy = some 0)) :
    runScript ox oy oz x y z = Except.ok (none, none, none) := by
  by_cases horig : ox = none ∨ oy = none ∨ oz = none
  · obtain ⟨st, lon, hsolve, hlat⟩ := geodetic_solve_nan ox oy oz horig hxy
    have hrel : pySub x ox = none ∨ pySub y oy = none ∨ pySub z oz = none := by
      rcases horig with h | h | h
      · exact Or.inl (by rw [h]; exact pySub_none_right x)
      · exact Or.inr (Or.inl (by rw [h]; exact pySub_none_right y))
      · exact Or.inr (Or.inr (by rw [h]; exact pySub_none_right z))
    simp only [runScript]
    rw [hsolve]
    simp only [exc_bind_ok]
    rw [hlat]
    exact sez_transform_nan none lon ox oy oz x y z hrel
  · push_neg at horig
    obtain ⟨hox, hoy, hoz⟩ := horig
    obtain ⟨a, ha⟩ := Option.ne_none_iff_exists'.mp hox
    obtain ⟨b, hb⟩ := Option.ne_none_iff_exists'.mp hoy
    obtain ⟨c, hc⟩ := Option.ne_none_iff_exists'.mp hoz
    subst ha
    subst hb
    subst hc
    have hab : ¬(a = 0 ∧ b = 0) := by
      intro ⟨h1, h2⟩
      exact hxy ⟨by rw [h1], by rw [h2]⟩
    obtain ⟨st, v, hsolve, hlat⟩ := geodetic_solve_finite_ok a b c hab
    have hrel : pySub x (some a) = none ∨ pySub y (some b) = none ∨
        pySub z (some c) = none := by
      rcases hnan with h | h | h | h | h | h
      · exact Option.noConfusion h
      · exact Option.noConfusion h
      · exact Option.noConfusion h
      · exact Or.inl (by rw [h]; exact pySub_none_left (some a))
      · exact Or.inr (Or.inl (by rw [h]; exact pySub_none_left (some b)))
      · exact Or.inr (Or.inr (by rw [h]; exact pySub_none_left (some c)))
    simp only [runScript]
    rw [hsolve]
    simp only [exc_bind_ok]
    rw [hlat]
    exact sez_transform_nan _ _ _ _ _ _ _ _ hrel

/-- Claim C9 witness (for the amended claim). -/
theorem runScript_nan_witness :
    ((some 1 : PyFloat) = none ∨ (some 0 : PyFloat) = none ∨ (none : PyFloat) = none ∨
      (some 1 : PyFloat) = none ∨ (some 1 : PyFloat) = none ∨ (some 1 : PyFloat) = none) ∧
    ¬((some 1 : PyFloat) = some 0 ∧ (some 0 : PyFloat) = some 0) ∧
    runScript (some 1) (some 0) none (some 1) (some 1) (some 1) =
      Except.ok (none, none, none) :=
  ⟨Or.inr (Or.inr (Or.inl rfl)), by simp,
    runScript_nan (some 1) (some 0) none (some 1) (some 1) (some 1)
      (Or.inr (Or.inr (Or.inl rfl))) (by simp)⟩

/-- Claim C9 counterexample: the input `(0, 0, NaN, 1, 1, 1)` contains a NaN
yet the script raises `ZeroDivisionError` (the loop divides by
`r_lon = sqrt(0² + 0²) = 0`), refuting exception-free NaN propagation. -/
theorem runScript_nan_cex :
    runScript (some 0) (some 0) none (some 1) (some 1) (some 1) =
      Except.error PyErr.zeroDivisionError ∧
    runScript (some 0) (some 0) none (some 1) (some 1) (some 1) ≠
      Except.ok (none, none, none) := by
  have h00 : ((0 : ℝ) ^ 2 + 0 ^ 2) = 0 := by norm_num
  have hcond : loopCond ⟨none, none, none, 0⟩ := ⟨Or.inl rfl, by norm_num⟩
  have hmain : runScript (some 0) (some 0) none (some 1) (some 1) (some 1) =
      Except.error PyErr.zeroDivisionError := by
    simp only [runScript, geodetic_solve, pyAtan2_some_some, pyPow_some, pyPow_none_two,
      pyAdd_some_some, pyAdd_none_right, pySqrt_none, exc_bind_ok, pyDiv_none_right,
      pyAsin_none, h00]
    rw [pySqrt_some _ le_rfl]
    simp only [exc_bind_ok, Real.sqrt_zero]
    rw [show (5 : Nat) = 4 + 1 from rfl, latLoop_succ_of_cond _ _ _ _ hcond]
    simp only [latBody, calc_denom, pySin_none, pyPow_none_two, pyMul_none_right,
      pySub_none_right, pySqrt_none, exc_bind_ok, pyDiv_none_right, pyMul_none_left,
      pyAdd_none_right, pyDiv_zero, exc_bind_error, Except.bind]
  exact ⟨hmain, by rw [hmain]; exact fun hcontra => Except.noConfusion hcontra⟩

/-- Claim C2 (amended): with the zero vector as origin, the script raises an
uncaught `ZeroDivisionError` at the initial latitude estimate
(`o_z / sqrt(o_x² + o_y² + o_z²)` divides by zero); no SEZ output (NaN or
otherwise) is produced. -/
theorem runScript_zero_origin (tx ty tz : PyFloat) :
    runScript (some 0) (some 0) (some 0) tx ty tz =
      Except.error PyErr.zeroDivisionError := by
  have h0 : ((0 : ℝ) ^ 2 + 0 ^ 2 + 0 ^ 2) = 0 := by norm_num
  simp only [runScript, geodetic_solve, pyAtan2_some_some, pyPow_some, pyAdd_some_some, h0]
  rw [pySqrt_some _ le_rfl]
  simp only [exc_bind_ok, Real.sqrt_zero, pyDiv_zero, exc_bind_error]

/-- Claim C2 counterexample: at origin `(0,0,0)` (target `(1,2,3)`) the
script raises `ZeroDivisionError` instead of returning `(NaN, NaN, NaN)`. -/
theorem runScript_zero_origin_cex :
    runScript (some 0) (some 0) (some 0) (some 1) (some 2) (some 3) =
      Except.error PyErr.zeroDivisionError ∧
    runScript (some 0) (some 0) (some 0) (some 1) (some 2) (some 3) ≠
      Except.ok (none, none, none) := by
  have h0 : ((0 : ℝ) ^ 2 + 0 ^ 2 + 0 ^ 2) = 0 := by norm_num
  have hmain : runScript (some 0) (some 0) (some 0) (some 1) (some 2) (some 3) =
      Except.error PyErr.zeroDivisionError := by
    simp only [runScript, geodetic_solve, pyAtan2_some_some, pyPow_some, pyAdd_some_some, h0]
    rw [pySqrt_some _ le_rfl]
    simp only [exc_bind_ok, Real.sqrt_zero, pyDiv_zero, exc_bind_error]
  exact ⟨hmain, by rw [hmain]; exact fun hcontra => Except.noConfusion hcontra⟩

/-- `latBody_finite` stated through `latUpdate`. -/
lemma latBody_finite_upd (c r : ℝ) (hr : r ≠ 0) (s : LatState) (φ : ℝ)
    (hφ : s.o_lat_rad = some φ) :
    latBody (some c) (some r) s =
      Except.ok ⟨some (latUpdate c r φ), some φ,
        some (R_E_KM / Real.sqrt (1 - E_E ^ 2 * Real.sin φ ^ 2)), s.count + 1⟩ :=
  latBody_finite c r hr s φ hφ

/-- When the first two updates move the latitude by more than `10e-7` and the
third moves it by at most `10e-7`, the loop performs exactly three
iterations. -/
lemma latLoop_exact_three (c r φ0 : ℝ) (hr : r ≠ 0)
    (h1 : 10e-7 < |latUpdate c r φ0 - φ0|)
    (h2 : 10e-7 < |latUpdate c r (latUpdate c r φ0) - latUpdate c r φ0|)
    (h3 : |latUpdate c r (latUpdate c r (latUpdate c r φ0)) -
        latUpdate c r (latUpdate c r φ0)| ≤ 10e-7) :
    latLoop (some c) (some r) 5 ⟨some φ0, none, none, 0⟩ =
      Except.ok ⟨some (latUpdate c r (latUpdate c r (latUpdate c r φ0))),
        some (latUpdate c r (latUpdate c r φ0)),
        some (R_E_KM / Real.sqrt
          (1 - E_E ^ 2 * Real.sin (latUpdate c r (latUpdate c r φ0)) ^ 2)),
        3⟩ := by
  have hc0 : loopCond ⟨some φ0, none, none, 0⟩ := ⟨Or.inl rfl, by norm_num⟩
  have hc1 : loopCond ⟨some (latUpdate c r φ0), some φ0,
      some (R_E_KM / Real.sqrt (1 - E_E ^ 2 * Real.sin φ0 ^ 2)), 1⟩ :=
    ⟨Or.inr ⟨latUpdate c r φ0 - φ0, rfl, h1⟩, by norm_num⟩
  have hc2 : loopCond ⟨some (latUpdate c r (latUpdate c r φ0)), some (latUpdate c r φ0),
      some (R_E_KM / Real.sqrt (1 - E_E ^ 2 * Real.sin (latUpdate c r φ0) ^ 2)), 2⟩ :=
    ⟨Or.inr ⟨latUpdate c r (latUpdate c r φ0) - latUpdate c r φ0, rfl, h2⟩, by norm_num⟩
  have hnc3 : ¬ loopCond ⟨some (latUpdate c r (latUpdate c r (latUpdate c r φ0))),
      some (latUpdate c r (latUpdate c r φ0)),
      some (R_E_KM / Real.sqrt
        (1 - E_E ^ 2 * Real.sin (latUpdate c r (latUpdate c r φ0)) ^ 2)), 3⟩ := by
    intro hcond
    rcases hcond.1 with hbad | ⟨d, hd, hdgt⟩
    · exact Option.noConfusion hbad
    · simp only [pySub_some_some, Option.some.injEq] at hd
      rw [← hd] at hdgt
      linarith
  rw [show (5 : Nat) = 4 + 1 from rfl, latLoop_succ_of_cond _ _ _ _ hc0,
    latBody_finite_upd c r hr _ φ0 rfl]
  simp only [exc_bind_ok']
  rw [show (4 : Nat) = 3 + 1 from rfl, latLoop_succ_of_cond _ _ _ _ hc1,
    latBody_finite_upd c r hr _ (latUpdate c r φ0) rfl]
  simp only [exc_bind_ok']
  rw [show (3 : Nat) = 2 + 1 from rfl, latLoop_succ_of_cond _ _ _ _ hc2,
    latBody_finite_upd c r hr _ (latUpdate c r (latUpdate c r φ0)) rfl]
  simp only [exc_bind_ok']
  rw [show (2 : Nat) = 1 + 1 from rfl, latLoop_succ_of_not_cond _ _ _ _ hnc3]

/-- Evaluation of the SEZ transform on finite inputs, with the components in
closed form. -/
lemma sez_transform_finite (lat lon ox oy oz x y z : ℝ) :
    sez_transform (some lat) (some lon) (some ox) (some oy) (some oz)
        (some x) (some y) (some z) =
      Except.ok
        (some (Real.sin lat * (Real.cos lon * (x - ox) + Real.sin lon * (y - oy)) -
            Real.cos lat * (z - oz)),
         some (-Real.sin lon * (x - ox) + Real.cos lon * (y - oy)),
         some (Real.cos lat * (Real.cos lon * (x - ox) + Real.sin lon * (y - oy)) +
            Real.sin lat * (z - oz))) := by
  simp only [sez_transform, Rzinv_mat, Ryinv_mat, pySub_some_some, pySin_some, pyCos_some,
    pyNeg_some, mm_3x3_3x1, exc_bind_ok, pyMul_some_some, pyAdd_some_some,
    pyIndex_cons_zero, pyIndex_cons_succ, Prod.mk.injEq, Option.some.injEq,
    Except.ok.injEq]
  refine ⟨?_, ?_, ?_⟩ <;> ring

/-! ### Endpoint-style interval bounds -/

lemma sqrt_bound {x xlo xhi lo hi : ℝ} (h1 : xlo ≤ x) (h2 : x ≤ xhi)
    (hlo : lo ^ 2 ≤ xlo) (hhi : xhi ≤ hi ^ 2) (hhi0 : 0 ≤ hi) :
    lo ≤ Real.sqrt x ∧ Real.sqrt x ≤ hi :=
  sqrt_interval hhi0 (hlo.trans h1) (h2.trans hhi)

lemma cdiv_bound {c b lb hb lo hi : ℝ} (hc : 0 ≤ c) (h0 : 0 < lb) (h1 : lb ≤ b)
    (h2 : b ≤ hb) (hlo : lo * hb ≤ c) (hhi : c ≤ hi * lb) (hlo0 : 0 ≤ lo) :
    lo ≤ c / b ∧ c / b ≤ hi := by
  have hb0 : 0 < b := h0.trans_le h1
  have hhb : 0 < hb := hb0.trans_le h2
  constructor
  · rw [le_div_iff hb0]
    nlinarith
  · rw [div_le_iff hb0]
    nlinarith

lemma cdiv_bound_neg {c b lb hb lo hi : ℝ} (hc : c ≤ 0) (h0 : 0 < lb) (h1 : lb ≤ b)
    (h2 : b ≤ hb) (hlo : lo * lb ≤ c) (hhi : c ≤ hi * hb) (hhi0 : hi ≤ 0) :
    lo ≤ c / b ∧ c / b ≤ hi := by
  have hb0 : 0 < b := h0.trans_le h1
  have hhb : 0 < hb := hb0.trans_le h2
  have hlo0 : lo ≤ 0 := by nlinarith
  constructor
  · rw [le_div_iff hb0]
    nlinarith
  · rw [div_le_iff hb0]
    nlinarith

lemma div_bound {a b la ha lb hb lo hi : ℝ} (hla : 0 ≤ la) (h1 : la ≤ a) (h2 : a ≤ ha)
    (h0 : 0 < lb) (h3 : lb ≤ b) (h4 : b ≤ hb)
    (hlo : lo * hb ≤ la) (hhi : ha ≤ hi * lb) (hlo0 : 0 ≤ lo) (hhi0 : 0 ≤ hi) :
    lo ≤ a / b ∧ a / b ≤ hi := by
  have hb0 : 0 < b := h0.trans_le h3
  have hhb : 0 < hb := hb0.trans_le h4
  constructor
  · rw [le_div_iff hb0]
    nlinarith
  · rw [div_le_iff hb0]
    nlinarith

lemma mul_bound {a b la ha lb hb lo hi : ℝ} (hla : 0 ≤ la) (h1 : la ≤ a) (h2 : a ≤ ha)
    (hlb : 0 ≤ lb) (h3 : lb ≤ b) (h4 : b ≤ hb)
    (hlo : lo ≤ la * lb) (hhi : ha * hb ≤ hi) :
    lo ≤ a * b ∧ a * b ≤ hi := by
  constructor <;> nlinarith

lemma sq_bound {s lo hi : ℝ} (h0 : 0 ≤ lo) (h1 : lo ≤ s) (h2 : s ≤ hi) :
    lo ^ 2 ≤ s ^ 2 ∧ s ^ 2 ≤ hi ^ 2 := by
  constructor <;> nlinarith

lemma mul_pos_neg_bound {a p la ha lp hp : ℝ} (hla : 0 ≤ la) (h1 : la ≤ a) (h2 : a ≤ ha)
    (h3 : lp ≤ p) (h4 : p ≤ hp) (hp0 : hp ≤ 0) :
    ha * lp ≤ a * p ∧ a * p ≤ la * hp := by
  constructor <;> nlinarith

lemma one_sub_sq_bound {x lx hx lo hi : ℝ} (h0 : 0 ≤ lx) (h1 : lx ≤ x) (h2 : x ≤ hx)
    (hlo : lo ≤ 1 - hx ^ 2) (hhi : 1 - lx ^ 2 ≤ hi) :
    lo ≤ 1 - x ^ 2 ∧ 1 - x ^ 2 ≤ hi := by
  constructor <;> nlinarith

lemma one_sub_cmul_sq_bound {x lx hx c lo hi : ℝ} (h0 : 0 ≤ lx) (h1 : lx ≤ x) (h2 : x ≤ hx)
    (hc : 0 ≤ c) (hlo : lo ≤ 1 - c * hx ^ 2) (hhi : 1 - c * lx ^ 2 ≤ hi) :
    lo ≤ 1 - c * x ^ 2 ∧ 1 - c * x ^ 2 ≤ hi := by
  have hx2 : x ^ 2 ≤ hx ^ 2 := by nlinarith
  have hl2 : lx ^ 2 ≤ x ^ 2 := by nlinarith
  have k1 : c * x ^ 2 ≤ c * hx ^ 2 := mul_le_mul_of_nonneg_left hx2 hc
  have k2 : c * lx ^ 2 ≤ c * x ^ 2 := mul_le_mul_of_nonneg_left hl2 hc
  constructor <;> linarith

lemma one_add_sq_bound {x lx hx lo hi : ℝ} (h0 : 0 ≤ lx) (h1 : lx ≤ x) (h2 : x ≤ hx)
    (hlo : lo ≤ 1 + lx ^ 2) (hhi : 1 + hx ^ 2 ≤ hi) :
    lo ≤ 1 + x ^ 2 ∧ 1 + x ^ 2 ≤ hi := by
  constructor <;> nlinarith

lemma add_const_bound {x lx hx c lo hi : ℝ} (h1 : lx ≤ x) (h2 : x ≤ hx)
    (hlo : lo ≤ c + lx) (hhi : c + hx ≤ hi) :
    lo ≤ c + x ∧ c + x ≤ hi := by
  constructor <;> linarith

/-- `arctan_gap` with the side condition reduced to endpoint arithmetic. -/
lemma arctan_gap_num {a b p alo bhi : ℝ} (hb : 0 ≤ b) (hba : b ≤ a) (halo : alo ≤ a)
    (hbhi : b ≤ bhi) (hab : a * b ≤ p) (hnum : (2e-6 : ℝ) * (1 + p) ≤ alo - bhi) :
    (10e-7 : ℝ) < Real.arctan a - Real.arctan b := by
  apply arctan_gap a b hb hba
  nlinarith

/-- `arctan_close` with the side conditions reduced to endpoint arithmetic. -/
lemma arctan_close_num {a b blo bhi alo ahi : ℝ} (h1 : blo ≤ b) (h2 : b ≤ bhi)
    (h3 : alo ≤ a) (h4 : a ≤ ahi) (h5 : 0 ≤ blo) (h6 : bhi ≤ alo)
    (h7 : ahi - blo ≤ (10e-7 : ℝ)) :
    |Real.arctan a - Real.arctan b| ≤ (10e-7 : ℝ) :=
  arctan_close a b (by linarith) (by linarith) (by linarith)

lemma abs_sub_le_of_bounds {x lx hx t eps : ℝ} (h1 : lx ≤ x) (h2 : x ≤ hx)
    (hlo : -eps ≤ lx - t) (hhi : hx - t ≤ eps) : |x - t| ≤ eps := by
  rw [abs_le]
  constructor <;> linarith

lemma abs_sub_sub_le {u v lu hu lv hv t eps : ℝ} (h1 : lu ≤ u) (h2 : u ≤ hu)
    (h3 : lv ≤ v) (h4 : v ≤ hv) (hlo : -eps ≤ lu - hv - t) (hhi : hu - lv - t ≤ eps) :
    |u - v - t| ≤ eps := by
  rw [abs_le]
  constructor <;> linarith

lemma abs_add_sub_le {u v lu hu lv hv t eps : ℝ} (h1 : lu ≤ u) (h2 : u ≤ hu)
    (h3 : lv ≤ v) (h4 : v ≤ hv) (hlo : -eps ≤ lu + lv - t) (hhi : hu + hv - t ≤ eps) :
    |u + v - t| ≤ eps := by
  rw [abs_le]
  constructor <;> linarith

set_option maxHeartbeats 2000000 in
/-- Claim C1: on the documented test vector the full pipeline (geodetic
solve of the origin followed by the two-rotation transform) produces SEZ
components within 0.01 km of S = -398.778, E = 356.458, Z = 10.340. -/
theorem runScript_test_vector :
    ∃ S E Z : ℝ,
      runScript (some 822.933) (some (-4787.187)) (some 4120.262)
          (some 1131.698) (some (-4479.324)) (some 4430.228) =
        Except.ok (some S, some E, some Z) ∧
      |S - (-398.778)| ≤ 0.01 ∧ |E - 356.458| ≤ 0.01 ∧ |Z - 10.340| ≤ 0.01 := by
  have hE2 : E_E ^ 2 = 0.006694384999665970759936 := by norm_num [E_E]
  have he2lo : (0.006694384999665970759936 : ℝ) ≤ E_E ^ 2 := le_of_eq hE2.symm
  have he2hi : E_E ^ 2 ≤ (0.006694384999665970759936 : ℝ) := le_of_eq hE2
  have bsq1 : (4857.404460764 : ℝ) ≤ Real.sqrt (822.933 ^ 2 + (-4787.187) ^ 2) ∧
      Real.sqrt (822.933 ^ 2 + (-4787.187) ^ 2) ≤ 4857.404460765 := sqrt_bound (le_refl _) (le_refl _) (by norm_num) (by norm_num) (by norm_num)
  have bsq0 : (6369.531932889 : ℝ) ≤ Real.sqrt (822.933 ^ 2 + (-4787.187) ^ 2 + 4120.262 ^ 2) ∧
      Real.sqrt (822.933 ^ 2 + (-4787.187) ^ 2 + 4120.262 ^ 2) ≤ 6369.531932890 := sqrt_bound (le_refl _) (le_refl _) (by norm_num) (by norm_num) (by norm_num)
  have bs0 : (0.646870451 : ℝ) ≤ 4120.262 / Real.sqrt (822.933 ^ 2 + (-4787.187) ^ 2 + 4120.262 ^ 2) ∧
      4120.262 / Real.sqrt (822.933 ^ 2 + (-4787.187) ^ 2 + 4120.262 ^ 2) ≤ 0.646870452 := cdiv_bound (by norm_num) (by norm_num) bsq0.1 bsq0.2 (by norm_num) (by norm_num) (by norm_num)
  have hsin0 : Real.sin (Real.arcsin (4120.262 / Real.sqrt (822.933 ^ 2 + (-4787.187) ^ 2 + 4120.262 ^ 2))) = 4120.262 / Real.sqrt (822.933 ^ 2 + (-4787.187) ^ 2 + 4120.262 ^ 2) :=
    Real.sin_arcsin (le_trans (by norm_num) bs0.1) (le_trans bs0.2 (by norm_num))
  have bsin0 : (0.646870451 : ℝ) ≤ Real.sin (Real.arcsin (4120.262 / Real.sqrt (822.933 ^ 2 + (-4787.187) ^ 2 + 4120.262 ^ 2))) ∧
      Real.sin (Real.arcsin (4120.262 / Real.sqrt (822.933 ^ 2 + (-4787.187) ^ 2 + 4120.262 ^ 2))) ≤ 0.646870452 := by rw [hsin0]; exact bs0
  have by0 : (0.581558618 : ℝ) ≤ 1 - (4120.262 / Real.sqrt (822.933 ^ 2 + (-4787.187) ^ 2 + 4120.262 ^ 2)) ^ 2 ∧
      1 - (4120.262 / Real.sqrt (822.933 ^ 2 + (-4787.187) ^ 2 + 4120.262 ^ 2)) ^ 2 ≤ 0.581558620 := one_sub_sq_bound (by norm_num) bs0.1 bs0.2 (by norm_num) (by norm_num)
  have bsy0 : (0.762599906 : ℝ) ≤ Real.sqrt (1 - (4120.262 / Real.sqrt (822.933 ^ 2 + (-4787.187) ^ 2 + 4120.262 ^ 2)) ^ 2) ∧
      Real.sqrt (1 - (4120.262 / Real.sqrt (822.933 ^ 2 + (-4787.187) ^ 2 + 4120.262 ^ 2)) ^ 2) ≤ 0.762599909 := sqrt_bound by0.1 by0.2 (by norm_num) (by norm_num) (by norm_num)
  have bx0 : (0.848243546 : ℝ) ≤ (4120.262 / Real.sqrt (822.933 ^ 2 + (-4787.187) ^ 2 + 4120.262 ^ 2)) / Real.sqrt (1 - (4120.262 / Real.sqrt (822.933 ^ 2 + (-4787.187) ^ 2 + 4120.262 ^ 2)) ^ 2) ∧
      (4120.262 / Real.sqrt (822.933 ^ 2 + (-4787.187) ^ 2 + 4120.262 ^ 2)) / Real.sqrt (1 - (4120.262 / Real.sqrt (822.933 ^ 2 + (-4787.187) ^ 2 + 4120.262 ^ 2)) ^ 2) ≤ 0.848243551 := div_bound (by norm_num) bs0.1 bs0.2 (by norm_num) bsy0.1 bsy0.2 (by norm_num) (by norm_num) (by norm_num) (by norm_num)
  have bq0 : (0.997198792 : ℝ) ≤ 1 - E_E ^ 2 * Real.sin (Real.arcsin (4120.262 / Real.sqrt (822.933 ^ 2 + (-4787.187) ^ 2 + 4120.262 ^ 2))) ^ 2 ∧
      1 - E_E ^ 2 * Real.sin (Real.arcsin (4120.262 / Real.sqrt (822.933 ^ 2 + (-4787.187) ^ 2 + 4120.262 ^ 2))) ^ 2 ≤ 0.997198793 := by rw [hE2]; exact one_sub_cmul_sq_bound (by norm_num) bsin0.1 bsin0.2 (by norm_num) (by norm_num) (by norm_num)
  have bD0 : (0.998598413 : ℝ) ≤ Real.sqrt (1 - E_E ^ 2 * Real.sin (Real.arcsin (4120.262 / Real.sqrt (822.933 ^ 2 + (-4787.187) ^ 2 + 4120.262 ^ 2))) ^ 2) ∧
      Real.sqrt (1 - E_E ^ 2 * Real.sin (Real.arcsin (4120.262 / Real.sqrt (822.933 ^ 2 + (-4787.187) ^ 2 + 4120.262 ^ 2))) ^ 2) ≤ 0.998598415 := sqrt_bound bq0.1 bq0.2 (by norm_num) (by norm_num) (by norm_num)
  have bcE0 : (6387.089048203 : ℝ) ≤ R_E_KM / Real.sqrt (1 - E_E ^ 2 * Real.sin (Real.arcsin (4120.262 / Real.sqrt (822.933 ^ 2 + (-4787.187) ^ 2 + 4120.262 ^ 2))) ^ 2) ∧
      R_E_KM / Real.sqrt (1 - E_E ^ 2 * Real.sin (Real.arcsin (4120.262 / Real.sqrt (822.933 ^ 2 + (-4787.187) ^ 2 + 4120.262 ^ 2))) ^ 2) ≤ 6387.089060996 := cdiv_bound (by norm_num [R_E_KM]) (by norm_num) bD0.1 bD0.2 (by norm_num [R_E_KM]) (by norm_num [R_E_KM]) (by norm_num)
  have bcEe0 : (42.757633115 : ℝ) ≤ R_E_KM / Real.sqrt (1 - E_E ^ 2 * Real.sin (Real.arcsin (4120.262 / Real.sqrt (822.933 ^ 2 + (-4787.187) ^ 2 + 4120.262 ^ 2))) ^ 2) * E_E ^ 2 ∧
      R_E_KM / Real.sqrt (1 - E_E ^ 2 * Real.sin (Real.arcsin (4120.262 / Real.sqrt (822.933 ^ 2 + (-4787.187) ^ 2 + 4120.262 ^ 2))) ^ 2) * E_E ^ 2 ≤ 42.757633202 := mul_bound (by norm_num) bcE0.1 bcE0.2 (by norm_num) he2lo he2hi (by norm_num) (by norm_num)
  have bm0 : (27.658649416 : ℝ) ≤ R_E_KM / Real.sqrt (1 - E_E ^ 2 * Real.sin (Real.arcsin (4120.262 / Real.sqrt (822.933 ^ 2 + (-4787.187) ^ 2 + 4120.262 ^ 2))) ^ 2) * E_E ^ 2 * Real.sin (Real.arcsin (4120.262 / Real.sqrt (822.933 ^ 2 + (-4787.187) ^ 2 + 4120.262 ^ 2))) ∧
      R_E_KM / Real.sqrt (1 - E_E ^ 2 * Real.sin (Real.arcsin (4120.262 / Real.sqrt (822.933 ^ 2 + (-4787.187) ^ 2 + 4120.262 ^ 2))) ^ 2) * E_E ^ 2 * Real.sin (Real.arcsin (4120.262 / Real.sqrt (822.933 ^ 2 + (-4787.187) ^ 2 + 4120.262 ^ 2))) ≤ 27.658649516 := mul_bound (by norm_num) bcEe0.1 bcEe0.2 (by norm_num) bsin0.1 bsin0.2 (by norm_num) (by norm_num)
  have bnum0 : (4147.920649416 : ℝ) ≤ 4120.262 + R_E_KM / Real.sqrt (1 - E_E ^ 2 * Real.sin (Real.arcsin (4120.262 / Real.sqrt (822.933 ^ 2 + (-4787.187) ^ 2 + 4120.262 ^ 2))) ^ 2) * E_E ^ 2 * Real.sin (Real.arcsin (4120.262 / Real.sqrt (822.933 ^ 2 + (-4787.187) ^ 2 + 4120.262 ^ 2))) ∧
      4120.262 + R_E_KM / Real.sqrt (1 - E_E ^ 2 * Real.sin (Real.arcsin (4120.262 / Real.sqrt (822.933 ^ 2 + (-4787.187) ^ 2 + 4120.262 ^ 2))) ^ 2) * E_E ^ 2 * Real.sin (Real.arcsin (4120.262 / Real.sqrt (822.933 ^ 2 + (-4787.187) ^ 2 + 4120.262 ^ 2))) ≤ 4147.920649516 := add_const_bound bm0.1 bm0.2 (by norm_num) (by norm_num)
  have bv0 : (0.853937670 : ℝ) ≤ (4120.262 + R_E_KM / Real.sqrt (1 - E_E ^ 2 * Real.sin (Real.arcsin (4120.262 / Real.sqrt (822.933 ^ 2 + (-4787.187) ^ 2 + 4120.262 ^ 2))) ^ 2) * E_E ^ 2 * Real.sin (Real.arcsin (4120.262 / Real.sqrt (822.933 ^ 2 + (-4787.187) ^ 2 + 4120.262 ^ 2)))) / (Real.sqrt (822.933 ^ 2 + (-4787.187) ^ 2)) ∧
      (4120.262 + R_E_KM / Real.sqrt (1 - E_E ^ 2 * Real.sin (Real.arcsin (4120.262 / Real.sqrt (822.933 ^ 2 + (-4787.187) ^ 2 + 4120.262 ^ 2))) ^ 2) * E_E ^ 2 * Real.sin (Real.arcsin (4120.262 / Real.sqrt (822.933 ^ 2 + (-4787.187) ^ 2 + 4120.262 ^ 2)))) / (Real.sqrt (822.933 ^ 2 + (-4787.187) ^ 2)) ≤ 0.853937671 := div_bound (by norm_num) bnum0.1 bnum0.2 (by norm_num) bsq1.1 bsq1.2 (by norm_num) (by norm_num) (by norm_num) (by norm_num)
  have bT0 : (1.729209544 : ℝ) ≤ 1 + ((4120.262 + R_E_KM / Real.sqrt (1 - E_E ^ 2 * Real.sin (Real.arcsin (4120.262 / Real.sqrt (822.933 ^ 2 + (-4787.187) ^ 2 + 4120.262 ^ 2))) ^ 2) * E_E ^ 2 * Real.sin (Real.arcsin (4120.262 / Real.sqrt (822.933 ^ 2 + (-4787.187) ^ 2 + 4120.262 ^ 2)))) / (Real.sqrt (822.933 ^ 2 + (-4787.187) ^ 2))) ^ 2 ∧
      1 + ((4120.262 + R_E_KM / Real.sqrt (1 - E_E ^ 2 * Real.sin (Real.arcsin (4120.262 / Real.sqrt (822.933 ^ 2 + (-4787.187) ^ 2 + 4120.262 ^ 2))) ^ 2) * E_E ^ 2 * Real.sin (Real.arcsin (4120.262 / Real.sqrt (822.933 ^ 2 + (-4787.187) ^ 2 + 4120.262 ^ 2)))) / (Real.sqrt (822.933 ^ 2 + (-4787.187) ^ 2))) ^ 2 ≤ 1.729209546 := one_add_sq_bound (by norm_num) bv0.1 bv0.2 (by norm_num) (by norm_num)
  have bt0 : (1.314994123 : ℝ) ≤ Real.sqrt (1 + ((4120.262 + R_E_KM / Real.sqrt (1 - E_E ^ 2 * Real.sin (Real.arcsin (4120.262 / Real.sqrt (822.933 ^ 2 + (-4787.187) ^ 2 + 4120.262 ^ 2))) ^ 2) * E_E ^ 2 * Real.sin (Real.arcsin (4120.262 / Real.sqrt (822.933 ^ 2 + (-4787.187) ^ 2 + 4120.262 ^ 2)))) / (Real.sqrt (822.933 ^ 2 + (-4787.187) ^ 2))) ^ 2) ∧
      Real.sqrt (1 + ((4120.262 + R_E_KM / Real.sqrt (1 - E_E ^ 2 * Real.sin (Real.arcsin (4120.262 / Real.sqrt (822.933 ^ 2 + (-4787.187) ^ 2 + 4120.262 ^ 2))) ^ 2) * E_E ^ 2 * Real.sin (Real.arcsin (4120.262 / Real.sqrt (822.933 ^ 2 + (-4787.187) ^ 2 + 4120.262 ^ 2)))) / (Real.sqrt (822.933 ^ 2 + (-4787.187) ^ 2))) ^ 2) ≤ 1.314994124 := sqrt_bound bT0.1 bT0.2 (by norm_num) (by norm_num) (by norm_num)
  have hsin1 : Real.sin (latUpdate 4120.262 (Real.sqrt (822.933 ^ 2 + (-4787.187) ^ 2)) (Real.arcsin (4120.262 / Real.sqrt (822.933 ^ 2 + (-4787.187) ^ 2 + 4120.262 ^ 2)))) = ((4120.262 + R_E_KM / Real.sqrt (1 - E_E ^ 2 * Real.sin (Real.arcsin (4120.262 / Real.sqrt (822.933 ^ 2 + (-4787.187) ^ 2 + 4120.262 ^ 2))) ^ 2) * E_E ^ 2 * Real.sin (Real.arcsin (4120.262 / Real.sqrt (822.933 ^ 2 + (-4787.187) ^ 2 + 4120.262 ^ 2)))) / (Real.sqrt (822.933 ^ 2 + (-4787.187) ^ 2))) / Real.sqrt (1 + ((4120.262 + R_E_KM / Real.sqrt (1 - E_E ^ 2 * Real.sin (Real.arcsin (4120.262 / Real.sqrt (822.933 ^ 2 + (-4787.187) ^ 2 + 4120.262 ^ 2))) ^ 2) * E_E ^ 2 * Real.sin (Real.arcsin (4120.262 / Real.sqrt (822.933 ^ 2 + (-4787.187) ^ 2 + 4120.262 ^ 2)))) / (Real.sqrt (822.933 ^ 2 + (-4787.187) ^ 2))) ^ 2) := by
    rw [show (latUpdate 4120.262 (Real.sqrt (822.933 ^ 2 + (-4787.187) ^ 2)) (Real.arcsin (4120.262 / Real.sqrt (822.933 ^ 2 + (-4787.187) ^ 2 + 4120.262 ^ 2)))) = Real.arctan ((4120.262 + R_E_KM / Real.sqrt (1 - E_E ^ 2 * Real.sin (Real.arcsin (4120.262 / Real.sqrt (822.933 ^ 2 + (-4787.187) ^ 2 + 4120.262 ^ 2))) ^ 2) * E_E ^ 2 * Real.sin (Real.arcsin (4120.262 / Real.sqrt (822.933 ^ 2 + (-4787.187) ^ 2 + 4120.262 ^ 2)))) / (Real.sqrt (822.933 ^ 2 + (-4787.187) ^ 2))) from rfl, Real.sin_arctan]
  have bsin1 : (0.649385160 : ℝ) ≤ Real.sin (latUpdate 4120.262 (Real.sqrt (822.933 ^ 2 + (-4787.187) ^ 2)) (Real.arcsin (4120.262 / Real.sqrt (822.933 ^ 2 + (-4787.187) ^ 2 + 4120.262 ^ 2)))) ∧
      Real.sin (latUpdate 4120.262 (Real.sqrt (822.933 ^ 2 + (-4787.187) ^ 2)) (Real.arcsin (4120.262 / Real.sqrt (822.933 ^ 2 + (-4787.187) ^ 2 + 4120.262 ^ 2)))) ≤ 0.649385162 := by rw [hsin1]; exact div_bound (by norm_num) bv0.1 bv0.2 (by norm_num) bt0.1 bt0.2 (by norm_num) (by norm_num) (by norm_num) (by norm_num)
  have bq1 : (0.997176970 : ℝ) ≤ 1 - E_E ^ 2 * Real.sin (latUpdate 4120.262 (Real.sqrt (822.933 ^ 2 + (-4787.187) ^ 2)) (Real.arcsin (4120.262 / Real.sqrt (822.933 ^ 2 + (-4787.187) ^ 2 + 4120.262 ^ 2)))) ^ 2 ∧
      1 - E_E ^ 2 * Real.sin (latUpdate 4120.262 (Real.sqrt (822.933 ^ 2 + (-4787.187) ^ 2)) (Real.arcsin (4120.262 / Real.sqrt (822.933 ^ 2 + (-4787.187) ^ 2 + 4120.262 ^ 2)))) ^ 2 ≤ 0.997176971 := by rw [hE2]; exact one_sub_cmul_sq_bound (by norm_num) bsin1.1 bsin1.2 (by norm_num) (by norm_num) (by norm_num)
  have bD1 : (0.998587487 : ℝ) ≤ Real.sqrt (1 - E_E ^ 2 * Real.sin (latUpdate 4120.262 (Real.sqrt (822.933 ^ 2 + (-4787.187) ^ 2)) (Real.arcsin (4120.262 / Real.sqrt (822.933 ^ 2 + (-4787.187) ^ 2 + 4120.262 ^ 2)))) ^ 2) ∧
      Real.sqrt (1 - E_E ^ 2 * Real.sin (latUpdate 4120.262 (Real.sqrt (822.933 ^ 2 + (-4787.187) ^ 2)) (Real.arcsin (4120.262 / Real.sqrt (822.933 ^ 2 + (-4787.187) ^ 2 + 4120.262 ^ 2)))) ^ 2) ≤ 0.998587488 := sqrt_bound bq1.1 bq1.2 (by norm_num) (by norm_num) (by norm_num)
  have bcE1 : (6387.158938646 : ℝ) ≤ R_E_KM / Real.sqrt (1 - E_E ^ 2 * Real.sin (latUpdate 4120.262 (Real.sqrt (822.933 ^ 2 + (-4787.187) ^ 2)) (Real.arcsin (4120.262 / Real.sqrt (822.933 ^ 2 + (-4787.187) ^ 2 + 4120.262 ^ 2)))) ^ 2) ∧
      R_E_KM / Real.sqrt (1 - E_E ^ 2 * Real.sin (latUpdate 4120.262 (Real.sqrt (822.933 ^ 2 + (-4787.187) ^ 2)) (Real.arcsin (4120.262 / Real.sqrt (822.933 ^ 2 + (-4787.187) ^ 2 + 4120.262 ^ 2)))) ^ 2) ≤ 6387.158945043 := cdiv_bound (by norm_num [R_E_KM]) (by norm_num) bD1.1 bD1.2 (by norm_num [R_E_KM]) (by norm_num [R_E_KM]) (by norm_num)
  have bcEe1 : (42.758100989 : ℝ) ≤ R_E_KM / Real.sqrt (1 - E_E ^ 2 * Real.sin (latUpdate 4120.262 (Real.sqrt (822.933 ^ 2 + (-4787.187) ^ 2)) (Real.arcsin (4120.262 / Real.sqrt (822.933 ^ 2 + (-4787.187) ^ 2 + 4120.262 ^ 2)))) ^ 2) * E_E ^ 2 ∧
      R_E_KM / Real.sqrt (1 - E_E ^ 2 * Real.sin (latUpdate 4120.262 (Real.sqrt (822.933 ^ 2 + (-4787.187) ^ 2)) (Real.arcsin (4120.262 / Real.sqrt (822.933 ^ 2 + (-4787.187) ^ 2 + 4120.262 ^ 2)))) ^ 2) * E_E ^ 2 ≤ 42.758101033 := mul_bound (by norm_num) bcE1.1 bcE1.2 (by norm_num) he2lo he2hi (by norm_num) (by norm_num)
  have bm1 : (27.766476252 : ℝ) ≤ R_E_KM / Real.sqrt (1 - E_E ^ 2 * Real.sin (latUpdate 4120.262 (Real.sqrt (822.933 ^ 2 + (-4787.187) ^ 2)) (Real.arcsin (4120.262 / Real.sqrt (822.933 ^ 2 + (-4787.187) ^ 2 + 4120.262 ^ 2)))) ^ 2) * E_E ^ 2 * Real.sin (latUpdate 4120.262 (Real.sqrt (822.933 ^ 2 + (-4787.187) ^ 2)) (Real.arcsin (4120.262 / Real.sqrt (822.933 ^ 2 + (-4787.187) ^ 2 + 4120.262 ^ 2)))) ∧
      R_E_KM / Real.sqrt (1 - E_E ^ 2 * Real.sin (latUpdate 4120.262 (Real.sqrt (822.933 ^ 2 + (-4787.187) ^ 2)) (Real.arcsin (4120.262 / Real.sqrt (822.933 ^ 2 + (-4787.187) ^ 2 + 4120.262 ^ 2)))) ^ 2) * E_E ^ 2 * Real.sin (latUpdate 4120.262 (Real.sqrt (822.933 ^ 2 + (-4787.187) ^ 2)) (Real.arcsin (4120.262 / Real.sqrt (822.933 ^ 2 + (-4787.187) ^ 2 + 4120.262 ^ 2)))) ≤ 27.766476367 := mul_bound (by norm_num) bcEe1.1 bcEe1.2 (by norm_num) bsin1.1 bsin1.2 (by norm_num) (by norm_num)
  have bnum1 : (4148.028476252 : ℝ) ≤ 4120.262 + R_E_KM / Real.sqrt (1 - E_E ^ 2 * Real.sin (latUpdate 4120.262 (Real.sqrt (822.933 ^ 2 + (-4787.187) ^ 2)) (Real.arcsin (4120.262 / Real.sqrt (822.933 ^ 2 + (-4787.187) ^ 2 + 4120.262 ^ 2)))) ^ 2) * E_E ^ 2 * Real.sin (latUpdate 4120.262 (Real.sqrt (822.933 ^ 2 + (-4787.187) ^ 2)) (Real.arcsin (4120.262 / Real.sqrt (822.933 ^ 2 + (-4787.187) ^ 2 + 4120.262 ^ 2)))) ∧
      4120.262 + R_E_KM / Real.sqrt (1 - E_E ^ 2 * Real.sin (latUpdate 4120.262 (Real.sqrt (822.933 ^ 2 + (-4787.187) ^ 2)) (Real.arcsin (4120.262 / Real.sqrt (822.933 ^ 2 + (-4787.187) ^ 2 + 4120.262 ^ 2)))) ^ 2) * E_E ^ 2 * Real.sin (latUpdate 4120.262 (Real.sqrt (822.933 ^ 2 + (-4787.187) ^ 2)) (Real.arcsin (4120.262 / Real.sqrt (822.933 ^ 2 + (-4787.187) ^ 2 + 4120.262 ^ 2)))) ≤ 4148.028476367 := add_const_bound bm1.1 bm1.2 (by norm_num) (by norm_num)
  have bv1 : (0.853959868 : ℝ) ≤ (4120.262 + R_E_KM / Real.sqrt (1 - E_E ^ 2 * Real.sin (latUpdate 4120.262 (Real.sqrt (822.933 ^ 2 + (-4787.187) ^ 2)) (Real.arcsin (4120.262 / Real.sqrt (822.933 ^ 2 + (-4787.187) ^ 2 + 4120.262 ^ 2)))) ^ 2) * E_E ^ 2 * Real.sin (latUpdate 4120.262 (Real.sqrt (822.933 ^ 2 + (-4787.187) ^ 2)) (Real.arcsin (4120.262 / Real.sqrt (822.933 ^ 2 + (-4787.187) ^ 2 + 4120.262 ^ 2))))) / (Real.sqrt (822.933 ^ 2 + (-4787.187) ^ 2)) ∧
      (4120.262 + R_E_KM / Real.sqrt (1 - E_E ^ 2 * Real.sin (latUpdate 4120.262 (Real.sqrt (822.933 ^ 2 + (-4787.187) ^ 2)) (Real.arcsin (4120.262 / Real.sqrt (822.933 ^ 2 + (-4787.187) ^ 2 + 4120.262 ^ 2)))) ^ 2) * E_E ^ 2 * Real.sin (latUpdate 4120.262 (Real.sqrt (822.933 ^ 2 + (-4787.187) ^ 2)) (Real.arcsin (4120.262 / Real.sqrt (822.933 ^ 2 + (-4787.187) ^ 2 + 4120.262 ^ 2))))) / (Real.sqrt (822.933 ^ 2 + (-4787.187) ^ 2)) ≤ 0.853959869 := div_bound (by norm_num) bnum1.1 bnum1.2 (by norm_num) bsq1.1 bsq1.2 (by norm_num) (by norm_num) (by norm_num) (by norm_num)
  have bT1 : (1.729247456 : ℝ) ≤ 1 + ((4120.262 + R_E_KM / Real.sqrt (1 - E_E ^ 2 * Real.sin (latUpdate 4120.262 (Real.sqrt (822.933 ^ 2 + (-4787.187) ^ 2)) (Real.arcsin (4120.262 / Real.sqrt (822.933 ^ 2 + (-4787.187) ^ 2 + 4120.262 ^ 2)))) ^ 2) * E_E ^ 2 * Real.sin (latUpdate 4120.262 (Real.sqrt (822.933 ^ 2 + (-4787.187) ^ 2)) (Real.arcsin (4120.262 / Real.sqrt (822.933 ^ 2 + (-4787.187) ^ 2 + 4120.262 ^ 2))))) / (Real.sqrt (822.933 ^ 2 + (-4787.187) ^ 2))) ^ 2 ∧
      1 + ((4120.262 + R_E_KM / Real.sqrt (1 - E_E ^ 2 * Real.sin (latUpdate 4120.262 (Real.sqrt (822.933 ^ 2 + (-4787.187) ^ 2)) (Real.arcsin (4120.262 / Real.sqrt (822.933 ^ 2 + (-4787.187) ^ 2 + 4120.262 ^ 2)))) ^ 2) * E_E ^ 2 * Real.sin (latUpdate 4120.262 (Real.sqrt (822.933 ^ 2 + (-4787.187) ^ 2)) (Real.arcsin (4120.262 / Real.sqrt (822.933 ^ 2 + (-4787.187) ^ 2 + 4120.262 ^ 2))))) / (Real.sqrt (822.933 ^ 2 + (-4787.187) ^ 2))) ^ 2 ≤ 1.729247458 := one_add_sq_bound (by norm_num) bv1.1 bv1.2 (by norm_num) (by norm_num)
  have bt1 : (1.315008538 : ℝ) ≤ Real.sqrt (1 + ((4120.262 + R_E_KM / Real.sqrt (1 - E_E ^ 2 * Real.sin (latUpdate 4120.262 (Real.sqrt (822.933 ^ 2 + (-4787.187) ^ 2)) (Real.arcsin (4120.262 / Real.sqrt (822.933 ^ 2 + (-4787.187) ^ 2 + 4120.262 ^ 2)))) ^ 2) * E_E ^ 2 * Real.sin (latUpdate 4120.262 (Real.sqrt (822.933 ^ 2 + (-4787.187) ^ 2)) (Real.arcsin (4120.262 / Real.sqrt (822.933 ^ 2 + (-4787.187) ^ 2 + 4120.262 ^ 2))))) / (Real.sqrt (822.933 ^ 2 + (-4787.187) ^ 2))) ^ 2) ∧
      Real.sqrt (1 + ((4120.262 + R_E_KM / Real.sqrt (1 - E_E ^ 2 * Real.sin (latUpdate 4120.262 (Real.sqrt (822.933 ^ 2 + (-4787.187) ^ 2)) (Real.arcsin (4120.262 / Real.sqrt (822.933 ^ 2 + (-4787.187) ^ 2 + 4120.262 ^ 2)))) ^ 2) * E_E ^ 2 * Real.sin (latUpdate 4120.262 (Real.sqrt (822.933 ^ 2 + (-4787.187) ^ 2)) (Real.arcsin (4120.262 / Real.sqrt (822.933 ^ 2 + (-4787.187) ^ 2 + 4120.262 ^ 2))))) / (Real.sqrt (822.933 ^ 2 + (-4787.187) ^ 2))) ^ 2) ≤ 1.315008540 := sqrt_bound bT1.1 bT1.2 (by norm_num) (by norm_num) (by norm_num)
  have hsin2 : Real.sin (latUpdate 4120.262 (Real.sqrt (822.933 ^ 2 + (-4787.187) ^ 2)) (latUpdate 4120.262 (Real.sqrt (822.933 ^ 2 + (-4787.187) ^ 2)) (Real.arcsin (4120.262 / Real.sqrt (822.933 ^ 2 + (-4787.187) ^ 2 + 4120.262 ^ 2))))) = ((4120.262 + R_E_KM / Real.sqrt (1 - E_E ^ 2 * Real.sin (latUpdate 4120.262 (Real.sqrt (822.933 ^ 2 + (-4787.187) ^ 2)) (Real.arcsin (4120.262 / Real.sqrt (822.933 ^ 2 + (-4787.187) ^ 2 + 4120.262 ^ 2)))) ^ 2) * E_E ^ 2 * Real.sin (latUpdate 4120.262 (Real.sqrt (822.933 ^ 2 + (-4787.187) ^ 2)) (Real.arcsin (4120.262 / Real.sqrt (822.933 ^ 2 + (-4787.187) ^ 2 + 4120.262 ^ 2))))) / (Real.sqrt (822.933 ^ 2 + (-4787.187) ^ 2))) / Real.sqrt (1 + ((4120.262 + R_E_KM / Real.sqrt (1 - E_E ^ 2 * Real.sin (latUpdate 4120.262 (Real.sqrt (822.933 ^ 2 + (-4787.187) ^ 2)) (Real.arcsin (4120.262 / Real.sqrt (822.933 ^ 2 + (-4787.187) ^ 2 + 4120.262 ^ 2)))) ^ 2) * E_E ^ 2 * Real.sin (latUpdate 4120.262 (Real.sqrt (822.933 ^ 2 + (-4787.187) ^ 2)) (Real.arcsin (4120.262 / Real.sqrt (822.933 ^ 2 + (-4787.187) ^ 2 + 4120.262 ^ 2))))) / (Real.sqrt (822.933 ^ 2 + (-4787.187) ^ 2))) ^ 2) := by
    rw [show (latUpdate 4120.262 (Real.sqrt (822.933 ^ 2 + (-4787.187) ^ 2)) (latUpdate 4120.262 (Real.sqrt (822.933 ^ 2 + (-4787.187) ^ 2)) (Real.arcsin (4120.262 / Real.sqrt (822.933 ^ 2 + (-4787.187) ^ 2 + 4120.262 ^ 2))))) = Real.arctan ((4120.262 + R_E_KM / Real.sqrt (1 - E_E ^ 2 * Real.sin (latUpdate 4120.262 (Real.sqrt (822.933 ^ 2 + (-4787.187) ^ 2)) (Real.arcsin (4120.262 / Real.sqrt (822.933 ^ 2 + (-4787.187) ^ 2 + 4120.262 ^ 2)))) ^ 2) * E_E ^ 2 * Real.sin (latUpdate 4120.262 (Real.sqrt (822.933 ^ 2 + (-4787.187) ^ 2)) (Real.arcsin (4120.262 / Real.sqrt (822.933 ^ 2 + (-4787.187) ^ 2 + 4120.262 ^ 2))))) / (Real.sqrt (822.933 ^ 2 + (-4787.187) ^ 2))) from rfl, Real.sin_arctan]
  have bsin2 : (0.649394921 : ℝ) ≤ Real.sin (latUpdate 4120.262 (Real.sqrt (822.933 ^ 2 + (-4787.187) ^ 2)) (latUpdate 4120.262 (Real.sqrt (822.933 ^ 2 + (-4787.187) ^ 2)) (Real.arcsin (4120.262 / Real.sqrt (822.933 ^ 2 + (-4787.187) ^ 2 + 4120.262 ^ 2))))) ∧
      Real.sin (latUpdate 4120.262 (Real.sqrt (822.933 ^ 2 + (-4787.187) ^ 2)) (latUpdate 4120.262 (Real.sqrt (822.933 ^ 2 + (-4787.187) ^ 2)) (Real.arcsin (4120.262 / Real.sqrt (822.933 ^ 2 + (-4787.187) ^ 2 + 4120.262 ^ 2))))) ≤ 0.649394924 := by rw [hsin2]; exact div_bound (by norm_num) bv1.1 bv1.2 (by norm_num) bt1.1 bt1.2 (by norm_num) (by norm_num) (by norm_num) (by norm_num)
  have bq2 : (0.997176885 : ℝ) ≤ 1 - E_E ^ 2 * Real.sin (latUpdate 4120.262 (Real.sqrt (822.933 ^ 2 + (-4787.187) ^ 2)) (latUpdate 4120.262 (Real.sqrt (822.933 ^ 2 + (-4787.187) ^ 2)) (Real.arcsin (4120.262 / Real.sqrt (822.933 ^ 2 + (-4787.187) ^ 2 + 4120.262 ^ 2))))) ^ 2 ∧
      1 - E_E ^ 2 * Real.sin (latUpdate 4120.262 (Real.sqrt (822.933 ^ 2 + (-4787.187) ^ 2)) (latUpdate 4120.262 (Real.sqrt (822.933 ^ 2 + (-4787.187) ^ 2)) (Real.arcsin (4120.262 / Real.sqrt (822.933 ^ 2 + (-4787.187) ^ 2 + 4120.262 ^ 2))))) ^ 2 ≤ 0.997176886 := by rw [hE2]; exact one_sub_cmul_sq_bound (by norm_num) bsin2.1 bsin2.2 (by norm_num) (by norm_num) (by norm_num)
  have bD2 : (0.998587444 : ℝ) ≤ Real.sqrt (1 - E_E ^ 2 * Real.sin (latUpdate 4120.262 (Real.sqrt (822.933 ^ 2 + (-4787.187) ^ 2)) (latUpdate 4120.262 (Real.sqrt (822.933 ^ 2 + (-4787.187) ^ 2)) (Real.arcsin (4120.262 / Real.sqrt (822.933 ^ 2 + (-4787.187) ^ 2 + 4120.262 ^ 2))))) ^ 2) ∧
      Real.sqrt (1 - E_E ^ 2 * Real.sin (latUpdate 4120.262 (Real.sqrt (822.933 ^ 2 + (-4787.187) ^ 2)) (latUpdate 4120.262 (Real.sqrt (822.933 ^ 2 + (-4787.187) ^ 2)) (Real.arcsin (4120.262 / Real.sqrt (822.933 ^ 2 + (-4787.187) ^ 2 + 4120.262 ^ 2))))) ^ 2) ≤ 0.998587446 := sqrt_bound bq2.1 bq2.2 (by norm_num) (by norm_num) (by norm_num)
  have bcE2 : (6387.159207286 : ℝ) ≤ R_E_KM / Real.sqrt (1 - E_E ^ 2 * Real.sin (latUpdate 4120.262 (Real.sqrt (822.933 ^ 2 + (-4787.187) ^ 2)) (latUpdate 4120.262 (Real.sqrt (822.933 ^ 2 + (-4787.187) ^ 2)) (Real.arcsin (4120.262 / Real.sqrt (822.933 ^ 2 + (-4787.187) ^ 2 + 4120.262 ^ 2))))) ^ 2) ∧
      R_E_KM / Real.sqrt (1 - E_E ^ 2 * Real.sin (latUpdate 4120.262 (Real.sqrt (822.933 ^ 2 + (-4787.187) ^ 2)) (latUpdate 4120.262 (Real.sqrt (822.933 ^ 2 + (-4787.187) ^ 2)) (Real.arcsin (4120.262 / Real.sqrt (822.933 ^ 2 + (-4787.187) ^ 2 + 4120.262 ^ 2))))) ^ 2) ≤ 6387.159220080 := cdiv_bound (by norm_num [R_E_KM]) (by norm_num) bD2.1 bD2.2 (by norm_num [R_E_KM]) (by norm_num [R_E_KM]) (by norm_num)
  have bcEe2 : (42.758102787 : ℝ) ≤ R_E_KM / Real.sqrt (1 - E_E ^ 2 * Real.sin (latUpdate 4120.262 (Real.sqrt (822.933 ^ 2 + (-4787.187) ^ 2)) (latUpdate 4120.262 (Real.sqrt (822.933 ^ 2 + (-4787.187) ^ 2)) (Real.arcsin (4120.262 / Real.sqrt (822.933 ^ 2 + (-4787.187) ^ 2 + 4120.262 ^ 2))))) ^ 2) * E_E ^ 2 ∧
      R_E_KM / Real.sqrt (1 - E_E ^ 2 * Real.sin (latUpdate 4120.262 (Real.sqrt (822.933 ^ 2 + (-4787.187) ^ 2)) (latUpdate 4120.262 (Real.sqrt (822.933 ^ 2 + (-4787.187) ^ 2)) (Real.arcsin (4120.262 / Real.sqrt (822.933 ^ 2 + (-4787.187) ^ 2 + 4120.262 ^ 2))))) ^ 2) * E_E ^ 2 ≤ 42.758102874 := mul_bound (by norm_num) bcE2.1 bcE2.2 (by norm_num) he2lo he2hi (by norm_num) (by norm_num)
  have bm2 : (27.766894781 : ℝ) ≤ R_E_KM / Real.sqrt (1 - E_E ^ 2 * Real.sin (latUpdate 4120.262 (Real.sqrt (822.933 ^ 2 + (-4787.187) ^ 2)) (latUpdate 4120.262 (Real.sqrt (822.933 ^ 2 + (-4787.187) ^ 2)) (Real.arcsin (4120.262 / Real.sqrt (822.933 ^ 2 + (-4787.187) ^ 2 + 4120.262 ^ 2))))) ^ 2) * E_E ^ 2 * Real.sin (latUpdate 4120.262 (Real.sqrt (822.933 ^ 2 + (-4787.187) ^ 2)) (latUpdate 4120.262 (Real.sqrt (822.933 ^ 2 + (-4787.187) ^ 2)) (Real.arcsin (4120.262 / Real.sqrt (822.933 ^ 2 + (-4787.187) ^ 2 + 4120.262 ^ 2))))) ∧
      R_E_KM / Real.sqrt (1 - E_E ^ 2 * Real.sin (latUpdate 4120.262 (Real.sqrt (822.933 ^ 2 + (-4787.187) ^ 2)) (latUpdate 4120.262 (Real.sqrt (822.933 ^ 2 + (-4787.187) ^ 2)) (Real.arcsin (4120.262 / Real.sqrt (822.933 ^ 2 + (-4787.187) ^ 2 + 4120.262 ^ 2))))) ^ 2) * E_E ^ 2 * Real.sin (latUpdate 4120.262 (Real.sqrt (822.933 ^ 2 + (-4787.187) ^ 2)) (latUpdate 4120.262 (Real.sqrt (822.933 ^ 2 + (-4787.187) ^ 2)) (Real.arcsin (4120.262 / Real.sqrt (822.933 ^ 2 + (-4787.187) ^ 2 + 4120.262 ^ 2))))) ≤ 27.766894967 := mul_bound (by norm_num) bcEe2.1 bcEe2.2 (by norm_num) bsin2.1 bsin2.2 (by norm_num) (by norm_num)
  have bnum2 : (4148.028894781 : ℝ) ≤ 4120.262 + R_E_KM / Real.sqrt (1 - E_E ^ 2 * Real.sin (latUpdate 4120.262 (Real.sqrt (822.933 ^ 2 + (-4787.187) ^ 2)) (latUpdate 4120.262 (Real.sqrt (822.933 ^ 2 + (-4787.187) ^ 2)) (Real.arcsin (4120.262 / Real.sqrt (822.933 ^ 2 + (-4787.187) ^ 2 + 4120.262 ^ 2))))) ^ 2) * E_E ^ 2 * Real.sin (latUpdate 4120.262 (Real.sqrt (822.933 ^ 2 + (-4787.187) ^ 2)) (latUpdate 4120.262 (Real.sqrt (822.933 ^ 2 + (-4787.187) ^ 2)) (Real.arcsin (4120.262 / Real.sqrt (822.933 ^ 2 + (-4787.187) ^ 2 + 4120.262 ^ 2))))) ∧
      4120.262 + R_E_KM / Real.sqrt (1 - E_E ^ 2 * Real.sin (latUpdate 4120.262 (Real.sqrt (822.933 ^ 2 + (-4787.187) ^ 2)) (latUpdate 4120.262 (Real.sqrt (822.933 ^ 2 + (-4787.187) ^ 2)) (Real.arcsin (4120.262 / Real.sqrt (822.933 ^ 2 + (-4787.187) ^ 2 + 4120.262 ^ 2))))) ^ 2) * E_E ^ 2 * Real.sin (latUpdate 4120.262 (Real.sqrt (822.933 ^ 2 + (-4787.187) ^ 2)) (latUpdate 4120.262 (Real.sqrt (822.933 ^ 2 + (-4787.187) ^ 2)) (Real.arcsin (4120.262 / Real.sqrt (822.933 ^ 2 + (-4787.187) ^ 2 + 4120.262 ^ 2))))) ≤ 4148.028894967 := add_const_bound bm2.1 bm2.2 (by norm_num) (by norm_num)
  have bv2 : (0.853959955 : ℝ) ≤ (4120.262 + R_E_KM / Real.sqrt (1 - E_E ^ 2 * Real.sin (latUpdate 4120.262 (Real.sqrt (822.933 ^ 2 + (-4787.187) ^ 2)) (latUpdate 4120.262 (Real.sqrt (822.933 ^ 2 + (-4787.187) ^ 2)) (Real.arcsin (4120.262 / Real.sqrt (822.933 ^ 2 + (-4787.187) ^ 2 + 4120.262 ^ 2))))) ^ 2) * E_E ^ 2 * Real.sin (latUpdate 4120.262 (Real.sqrt (822.933 ^ 2 + (-4787.187) ^ 2)) (latUpdate 4120.262 (Real.sqrt (822.933 ^ 2 + (-4787.187) ^ 2)) (Real.arcsin (4120.262 / Real.sqrt (822.933 ^ 2 + (-4787.187) ^ 2 + 4120.262 ^ 2)))))) / (Real.sqrt (822.933 ^ 2 + (-4787.187) ^ 2)) ∧
      (4120.262 + R_E_KM / Real.sqrt (1 - E_E ^ 2 * Real.sin (latUpdate 4120.262 (Real.sqrt (822.933 ^ 2 + (-4787.187) ^ 2)) (latUpdate 4120.262 (Real.sqrt (822.933 ^ 2 + (-4787.187) ^ 2)) (Real.arcsin (4120.262 / Real.sqrt (822.933 ^ 2 + (-4787.187) ^ 2 + 4120.262 ^ 2))))) ^ 2) * E_E ^ 2 * Real.sin (latUpdate 4120.262 (Real.sqrt (822.933 ^ 2 + (-4787.187) ^ 2)) (latUpdate 4120.262 (Real.sqrt (822.933 ^ 2 + (-4787.187) ^ 2)) (Real.arcsin (4120.262 / Real.sqrt (822.933 ^ 2 + (-4787.187) ^ 2 + 4120.262 ^ 2)))))) / (Real.sqrt (822.933 ^ 2 + (-4787.187) ^ 2)) ≤ 0.853959956 := div_bound (by norm_num) bnum2.1 bnum2.2 (by norm_num) bsq1.1 bsq1.2 (by norm_num) (by norm_num) (by norm_num) (by norm_num)
  have bT2 : (1.729247604 : ℝ) ≤ 1 + ((4120.262 + R_E_KM / Real.sqrt (1 - E_E ^ 2 * Real.sin (latUpdate 4120.262 (Real.sqrt (822.933 ^ 2 + (-4787.187) ^ 2)) (latUpdate 4120.262 (Real.sqrt (822.933 ^ 2 + (-4787.187) ^ 2)) (Real.arcsin (4120.262 / Real.sqrt (822.933 ^ 2 + (-4787.187) ^ 2 + 4120.262 ^ 2))))) ^ 2) * E_E ^ 2 * Real.sin (latUpdate 4120.262 (Real.sqrt (822.933 ^ 2 + (-4787.187) ^ 2)) (latUpdate 4120.262 (Real.sqrt (822.933 ^ 2 + (-4787.187) ^ 2)) (Real.arcsin (4120.262 / Real.sqrt (822.933 ^ 2 + (-4787.187) ^ 2 + 4120.262 ^ 2)))))) / (Real.sqrt (822.933 ^ 2 + (-4787.187) ^ 2))) ^ 2 ∧
      1 + ((4120.262 + R_E_KM / Real.sqrt (1 - E_E ^ 2 * Real.sin (latUpdate 4120.262 (Real.sqrt (822.933 ^ 2 + (-4787.187) ^ 2)) (latUpdate 4120.262 (Real.sqrt (822.933 ^ 2 + (-4787.187) ^ 2)) (Real.arcsin (4120.262 / Real.sqrt (822.933 ^ 2 + (-4787.187) ^ 2 + 4120.262 ^ 2))))) ^ 2) * E_E ^ 2 * Real.sin (latUpdate 4120.262 (Real.sqrt (822.933 ^ 2 + (-4787.187) ^ 2)) (latUpdate 4120.262 (Real.sqrt (822.933 ^ 2 + (-4787.187) ^ 2)) (Real.arcsin (4120.262 / Real.sqrt (822.933 ^ 2 + (-4787.187) ^ 2 + 4120.262 ^ 2)))))) / (Real.sqrt (822.933 ^ 2 + (-4787.187) ^ 2))) ^ 2 ≤ 1.729247607 := one_add_sq_bound (by norm_num) bv2.1 bv2.2 (by norm_num) (by norm_num)
  have bt2 : (1.315008594 : ℝ) ≤ Real.sqrt (1 + ((4120.262 + R_E_KM / Real.sqrt (1 - E_E ^ 2 * Real.sin (latUpdate 4120.262 (Real.sqrt (822.933 ^ 2 + (-4787.187) ^ 2)) (latUpdate 4120.262 (Real.sqrt (822.933 ^ 2 + (-4787.187) ^ 2)) (Real.arcsin (4120.262 / Real.sqrt (822.933 ^ 2 + (-4787.187) ^ 2 + 4120.262 ^ 2))))) ^ 2) * E_E ^ 2 * Real.sin (latUpdate 4120.262 (Real.sqrt (822.933 ^ 2 + (-4787.187) ^ 2)) (latUpdate 4120.262 (Real.sqrt (822.933 ^ 2 + (-4787.187) ^ 2)) (Real.arcsin (4120.262 / Real.sqrt (822.933 ^ 2 + (-4787.187) ^ 2 + 4120.262 ^ 2)))))) / (Real.sqrt (822.933 ^ 2 + (-4787.187) ^ 2))) ^ 2) ∧
      Real.sqrt (1 + ((4120.262 + R_E_KM / Real.sqrt (1 - E_E ^ 2 * Real.sin (latUpdate 4120.262 (Real.sqrt (822.933 ^ 2 + (-4787.187) ^ 2)) (latUpdate 4120.262 (Real.sqrt (822.933 ^ 2 + (-4787.187) ^ 2)) (Real.arcsin (4120.262 / Real.sqrt (822.933 ^ 2 + (-4787.187) ^ 2 + 4120.262 ^ 2))))) ^ 2) * E_E ^ 2 * Real.sin (latUpdate 4120.262 (Real.sqrt (822.933 ^ 2 + (-4787.187) ^ 2)) (latUpdate 4120.262 (Real.sqrt (822.933 ^ 2 + (-4787.187) ^ 2)) (Real.arcsin (4120.262 / Real.sqrt (822.933 ^ 2 + (-4787.187) ^ 2 + 4120.262 ^ 2)))))) / (Real.sqrt (822.933 ^ 2 + (-4787.187) ^ 2))) ^ 2) ≤ 1.315008596 := sqrt_bound bT2.1 bT2.2 (by norm_num) (by norm_num) (by norm_num)
  have bs3q : (0.649394960 : ℝ) ≤ ((4120.262 + R_E_KM / Real.sqrt (1 - E_E ^ 2 * Real.sin (latUpdate 4120.262 (Real.sqrt (822.933 ^ 2 + (-4787.187) ^ 2)) (latUpdate 4120.262 (Real.sqrt (822.933 ^ 2 + (-4787.187) ^ 2)) (Real.arcsin (4120.262 / Real.sqrt (822.933 ^ 2 + (-4787.187) ^ 2 + 4120.262 ^ 2))))) ^ 2) * E_E ^ 2 * Real.sin (latUpdate 4120.262 (Real.sqrt (822.933 ^ 2 + (-4787.187) ^ 2)) (latUpdate 4120.262 (Real.sqrt (822.933 ^ 2 + (-4787.187) ^ 2)) (Real.arcsin (4120.262 / Real.sqrt (822.933 ^ 2 + (-4787.187) ^ 2 + 4120.262 ^ 2)))))) / (Real.sqrt (822.933 ^ 2 + (-4787.187) ^ 2))) / Real.sqrt (1 + ((4120.262 + R_E_KM / Real.sqrt (1 - E_E ^ 2 * Real.sin (latUpdate 4120.262 (Real.sqrt (822.933 ^ 2 + (-4787.187) ^ 2)) (latUpdate 4120.262 (Real.sqrt (822.933 ^ 2 + (-4787.187) ^ 2)) (Real.arcsin (4120.262 / Real.sqrt (822.933 ^ 2 + (-4787.187) ^ 2 + 4120.262 ^ 2))))) ^ 2) * E_E ^ 2 * Real.sin (latUpdate 4120.262 (Real.sqrt (822.933 ^ 2 + (-4787.187) ^ 2)) (latUpdate 4120.262 (Real.sqrt (822.933 ^ 2 + (-4787.187) ^ 2)) (Real.arcsin (4120.262 / Real.sqrt (822.933 ^ 2 + (-4787.187) ^ 2 + 4120.262 ^ 2)))))) / (Real.sqrt (822.933 ^ 2 + (-4787.187) ^ 2))) ^ 2) ∧
      ((4120.262 + R_E_KM / Real.sqrt (1 - E_E ^ 2 * Real.sin (latUpdate 4120.262 (Real.sqrt (822.933 ^ 2 + (-4787.187) ^ 2)) (latUpdate 4120.262 (Real.sqrt (822.933 ^ 2 + (-4787.187) ^ 2)) (Real.arcsin (4120.262 / Real.sqrt (822.933 ^ 2 + (-4787.187) ^ 2 + 4120.262 ^ 2))))) ^ 2) * E_E ^ 2 * Real.sin (latUpdate 4120.262 (Real.sqrt (822.933 ^ 2 + (-4787.187) ^ 2)) (latUpdate 4120.262 (Real.sqrt (822.933 ^ 2 + (-4787.187) ^ 2)) (Real.arcsin (4120.262 / Real.sqrt (822.933 ^ 2 + (-4787.187) ^ 2 + 4120.262 ^ 2)))))) / (Real.sqrt (822.933 ^ 2 + (-4787.187) ^ 2))) / Real.sqrt (1 + ((4120.262 + R_E_KM / Real.sqrt (1 - E_E ^ 2 * Real.sin (latUpdate 4120.262 (Real.sqrt (822.933 ^ 2 + (-4787.187) ^ 2)) (latUpdate 4120.262 (Real.sqrt (822.933 ^ 2 + (-4787.187) ^ 2)) (Real.arcsin (4120.262 / Real.sqrt (822.933 ^ 2 + (-4787.187) ^ 2 + 4120.262 ^ 2))))) ^ 2) * E_E ^ 2 * Real.sin (latUpdate 4120.262 (Real.sqrt (822.933 ^ 2 + (-4787.187) ^ 2)) (latUpdate 4120.262 (Real.sqrt (822.933 ^ 2 + (-4787.187) ^ 2)) (Real.arcsin (4120.262 / Real.sqrt (822.933 ^ 2 + (-4787.187) ^ 2 + 4120.262 ^ 2)))))) / (Real.sqrt (822.933 ^ 2 + (-4787.187) ^ 2))) ^ 2) ≤ 0.649394963 := div_bound (by norm_num) bv2.1 bv2.2 (by norm_num) bt2.1 bt2.2 (by norm_num) (by norm_num) (by norm_num) (by norm_num)
  have bc3q : (0.760451302 : ℝ) ≤ 1 / Real.sqrt (1 + ((4120.262 + R_E_KM / Real.sqrt (1 - E_E ^ 2 * Real.sin (latUpdate 4120.262 (Real.sqrt (822.933 ^ 2 + (-4787.187) ^ 2)) (latUpdate 4120.262 (Real.sqrt (822.933 ^ 2 + (-4787.187) ^ 2)) (Real.arcsin (4120.262 / Real.sqrt (822.933 ^ 2 + (-4787.187) ^ 2 + 4120.262 ^ 2))))) ^ 2) * E_E ^ 2 * Real.sin (latUpdate 4120.262 (Real.sqrt (822.933 ^ 2 + (-4787.187) ^ 2)) (latUpdate 4120.262 (Real.sqrt (822.933 ^ 2 + (-4787.187) ^ 2)) (Real.arcsin (4120.262 / Real.sqrt (822.933 ^ 2 + (-4787.187) ^ 2 + 4120.262 ^ 2)))))) / (Real.sqrt (822.933 ^ 2 + (-4787.187) ^ 2))) ^ 2) ∧
      1 / Real.sqrt (1 + ((4120.262 + R_E_KM / Real.sqrt (1 - E_E ^ 2 * Real.sin (latUpdate 4120.262 (Real.sqrt (822.933 ^ 2 + (-4787.187) ^ 2)) (latUpdate 4120.262 (Real.sqrt (822.933 ^ 2 + (-4787.187) ^ 2)) (Real.arcsin (4120.262 / Real.sqrt (822.933 ^ 2 + (-4787.187) ^ 2 + 4120.262 ^ 2))))) ^ 2) * E_E ^ 2 * Real.sin (latUpdate 4120.262 (Real.sqrt (822.933 ^ 2 + (-4787.187) ^ 2)) (latUpdate 4120.262 (Real.sqrt (822.933 ^ 2 + (-4787.187) ^ 2)) (Real.arcsin (4120.262 / Real.sqrt (822.933 ^ 2 + (-4787.187) ^ 2 + 4120.262 ^ 2)))))) / (Real.sqrt (822.933 ^ 2 + (-4787.187) ^ 2))) ^ 2) ≤ 0.760451304 := cdiv_bound (by norm_num) (by norm_num) bt2.1 bt2.2 (by norm_num) (by norm_num) (by norm_num)
  have bp1 : (0.724347117 : ℝ) ≤ ((4120.262 + R_E_KM / Real.sqrt (1 - E_E ^ 2 * Real.sin (Real.arcsin (4120.262 / Real.sqrt (822.933 ^ 2 + (-4787.187) ^ 2 + 4120.262 ^ 2))) ^ 2) * E_E ^ 2 * Real.sin (Real.arcsin (4120.262 / Real.sqrt (822.933 ^ 2 + (-4787.187) ^ 2 + 4120.262 ^ 2)))) / (Real.sqrt (822.933 ^ 2 + (-4787.187) ^ 2))) * ((4120.262 / Real.sqrt (822.933 ^ 2 + (-4787.187) ^ 2 + 4120.262 ^ 2)) / Real.sqrt (1 - (4120.262 / Real.sqrt (822.933 ^ 2 + (-4787.187) ^ 2 + 4120.262 ^ 2)) ^ 2)) ∧
      ((4120.262 + R_E_KM / Real.sqrt (1 - E_E ^ 2 * Real.sin (Real.arcsin (4120.262 / Real.sqrt (822.933 ^ 2 + (-4787.187) ^ 2 + 4120.262 ^ 2))) ^ 2) * E_E ^ 2 * Real.sin (Real.arcsin (4120.262 / Real.sqrt (822.933 ^ 2 + (-4787.187) ^ 2 + 4120.262 ^ 2)))) / (Real.sqrt (822.933 ^ 2 + (-4787.187) ^ 2))) * ((4120.262 / Real.sqrt (822.933 ^ 2 + (-4787.187) ^ 2 + 4120.262 ^ 2)) / Real.sqrt (1 - (4120.262 / Real.sqrt (822.933 ^ 2 + (-4787.187) ^ 2 + 4120.262 ^ 2)) ^ 2)) ≤ 0.724347123 := mul_bound (by norm_num) bv0.1 bv0.2 (by norm_num) bx0.1 bx0.2 (by norm_num) (by norm_num)
  have bp2 : (0.729228499 : ℝ) ≤ ((4120.262 + R_E_KM / Real.sqrt (1 - E_E ^ 2 * Real.sin (latUpdate 4120.262 (Real.sqrt (822.933 ^ 2 + (-4787.187) ^ 2)) (Real.arcsin (4120.262 / Real.sqrt (822.933 ^ 2 + (-4787.187) ^ 2 + 4120.262 ^ 2)))) ^ 2) * E_E ^ 2 * Real.sin (latUpdate 4120.262 (Real.sqrt (822.933 ^ 2 + (-4787.187) ^ 2)) (Real.arcsin (4120.262 / Real.sqrt (822.933 ^ 2 + (-4787.187) ^ 2 + 4120.262 ^ 2))))) / (Real.sqrt (822.933 ^ 2 + (-4787.187) ^ 2))) * ((4120.262 + R_E_KM / Real.sqrt (1 - E_E ^ 2 * Real.sin (Real.arcsin (4120.262 / Real.sqrt (822.933 ^ 2 + (-4787.187) ^ 2 + 4120.262 ^ 2))) ^ 2) * E_E ^ 2 * Real.sin (Real.arcsin (4120.262 / Real.sqrt (822.933 ^ 2 + (-4787.187) ^ 2 + 4120.262 ^ 2)))) / (Real.sqrt (822.933 ^ 2 + (-4787.187) ^ 2))) ∧
      ((4120.262 + R_E_KM / Real.sqrt (1 - E_E ^ 2 * Real.sin (latUpdate 4120.262 (Real.sqrt (822.933 ^ 2 + (-4787.187) ^ 2)) (Real.arcsin (4120.262 / Real.sqrt (822.933 ^ 2 + (-4787.187) ^ 2 + 4120.262 ^ 2)))) ^ 2) * E_E ^ 2 * Real.sin (latUpdate 4120.262 (Real.sqrt (822.933 ^ 2 + (-4787.187) ^ 2)) (Real.arcsin (4120.262 / Real.sqrt (822.933 ^ 2 + (-4787.187) ^ 2 + 4120.262 ^ 2))))) / (Real.sqrt (822.933 ^ 2 + (-4787.187) ^ 2))) * ((4120.262 + R_E_KM / Real.sqrt (1 - E_E ^ 2 * Real.sin (Real.arcsin (4120.262 / Real.sqrt (822.933 ^ 2 + (-4787.187) ^ 2 + 4120.262 ^ 2))) ^ 2) * E_E ^ 2 * Real.sin (Real.arcsin (4120.262 / Real.sqrt (822.933 ^ 2 + (-4787.187) ^ 2 + 4120.262 ^ 2)))) / (Real.sqrt (822.933 ^ 2 + (-4787.187) ^ 2))) ≤ 0.729228502 := mul_bound (by norm_num) bv1.1 bv1.2 (by norm_num) bv0.1 bv0.2 (by norm_num) (by norm_num)
  have harcsin : (Real.arcsin (4120.262 / Real.sqrt (822.933 ^ 2 + (-4787.187) ^ 2 + 4120.262 ^ 2))) = Real.arctan ((4120.262 / Real.sqrt (822.933 ^ 2 + (-4787.187) ^ 2 + 4120.262 ^ 2)) / Real.sqrt (1 - (4120.262 / Real.sqrt (822.933 ^ 2 + (-4787.187) ^ 2 + 4120.262 ^ 2)) ^ 2)) :=
    Real.arcsin_eq_arctan (Set.mem_Ioo.mpr
      ⟨lt_of_lt_of_le (by norm_num) bs0.1, lt_of_le_of_lt bs0.2 (by norm_num)⟩)
  have hx0nn : (0 : ℝ) ≤ ((4120.262 / Real.sqrt (822.933 ^ 2 + (-4787.187) ^ 2 + 4120.262 ^ 2)) / Real.sqrt (1 - (4120.262 / Real.sqrt (822.933 ^ 2 + (-4787.187) ^ 2 + 4120.262 ^ 2)) ^ 2)) := le_trans (by norm_num) bx0.1
  have hx0v0 : ((4120.262 / Real.sqrt (822.933 ^ 2 + (-4787.187) ^ 2 + 4120.262 ^ 2)) / Real.sqrt (1 - (4120.262 / Real.sqrt (822.933 ^ 2 + (-4787.187) ^ 2 + 4120.262 ^ 2)) ^ 2)) ≤ ((4120.262 + R_E_KM / Real.sqrt (1 - E_E ^ 2 * Real.sin (Real.arcsin (4120.262 / Real.sqrt (822.933 ^ 2 + (-4787.187) ^ 2 + 4120.262 ^ 2))) ^ 2) * E_E ^ 2 * Real.sin (Real.arcsin (4120.262 / Real.sqrt (822.933 ^ 2 + (-4787.187) ^ 2 + 4120.262 ^ 2)))) / (Real.sqrt (822.933 ^ 2 + (-4787.187) ^ 2))) := le_trans bx0.2 (le_trans (by norm_num) bv0.1)
  have hv0nn : (0 : ℝ) ≤ ((4120.262 + R_E_KM / Real.sqrt (1 - E_E ^ 2 * Real.sin (Real.arcsin (4120.262 / Real.sqrt (822.933 ^ 2 + (-4787.187) ^ 2 + 4120.262 ^ 2))) ^ 2) * E_E ^ 2 * Real.sin (Real.arcsin (4120.262 / Real.sqrt (822.933 ^ 2 + (-4787.187) ^ 2 + 4120.262 ^ 2)))) / (Real.sqrt (822.933 ^ 2 + (-4787.187) ^ 2))) := le_trans (by norm_num) bv0.1
  have hv0v1 : ((4120.262 + R_E_KM / Real.sqrt (1 - E_E ^ 2 * Real.sin (Real.arcsin (4120.262 / Real.sqrt (822.933 ^ 2 + (-4787.187) ^ 2 + 4120.262 ^ 2))) ^ 2) * E_E ^ 2 * Real.sin (Real.arcsin (4120.262 / Real.sqrt (822.933 ^ 2 + (-4787.187) ^ 2 + 4120.262 ^ 2)))) / (Real.sqrt (822.933 ^ 2 + (-4787.187) ^ 2))) ≤ ((4120.262 + R_E_KM / Real.sqrt (1 - E_E ^ 2 * Real.sin (latUpdate 4120.262 (Real.sqrt (822.933 ^ 2 + (-4787.187) ^ 2)) (Real.arcsin (4120.262 / Real.sqrt (822.933 ^ 2 + (-4787.187) ^ 2 + 4120.262 ^ 2)))) ^ 2) * E_E ^ 2 * Real.sin (latUpdate 4120.262 (Real.sqrt (822.933 ^ 2 + (-4787.187) ^ 2)) (Real.arcsin (4120.262 / Real.sqrt (822.933 ^ 2 + (-4787.187) ^ 2 + 4120.262 ^ 2))))) / (Real.sqrt (822.933 ^ 2 + (-4787.187) ^ 2))) := le_trans bv0.2 (le_trans (by norm_num) bv1.1)
  have hgap1 : (10e-7 : ℝ) < |(latUpdate 4120.262 (Real.sqrt (822.933 ^ 2 + (-4787.187) ^ 2)) (Real.arcsin (4120.262 / Real.sqrt (822.933 ^ 2 + (-4787.187) ^ 2 + 4120.262 ^ 2)))) - (Real.arcsin (4120.262 / Real.sqrt (822.933 ^ 2 + (-4787.187) ^ 2 + 4120.262 ^ 2)))| := by
    rw [show (latUpdate 4120.262 (Real.sqrt (822.933 ^ 2 + (-4787.187) ^ 2)) (Real.arcsin (4120.262 / Real.sqrt (822.933 ^ 2 + (-4787.187) ^ 2 + 4120.262 ^ 2)))) = Real.arctan ((4120.262 + R_E_KM / Real.sqrt (1 - E_E ^ 2 * Real.sin (Real.arcsin (4120.262 / Real.sqrt (822.933 ^ 2 + (-4787.187) ^ 2 + 4120.262 ^ 2))) ^ 2) * E_E ^ 2 * Real.sin (Real.arcsin (4120.262 / Real.sqrt (822.933 ^ 2 + (-4787.187) ^ 2 + 4120.262 ^ 2)))) / (Real.sqrt (822.933 ^ 2 + (-4787.187) ^ 2))) from rfl]
    nth_rewrite 3 [harcsin]
    exact lt_of_lt_of_le
      (arctan_gap_num hx0nn hx0v0 bv0.1 bx0.2 bp1.2 (by norm_num)) (le_abs_self _)
  have hgap2 : (10e-7 : ℝ) < |(latUpdate 4120.262 (Real.sqrt (822.933 ^ 2 + (-4787.187) ^ 2)) (latUpdate 4120.262 (Real.sqrt (822.933 ^ 2 + (-4787.187) ^ 2)) (Real.arcsin (4120.262 / Real.sqrt (822.933 ^ 2 + (-4787.187) ^ 2 + 4120.262 ^ 2))))) - (latUpdate 4120.262 (Real.sqrt (822.933 ^ 2 + (-4787.187) ^ 2)) (Real.arcsin (4120.262 / Real.sqrt (822.933 ^ 2 + (-4787.187) ^ 2 + 4120.262 ^ 2))))| := by
    rw [show (latUpdate 4120.262 (Real.sqrt (822.933 ^ 2 + (-4787.187) ^ 2)) (latUpdate 4120.262 (Real.sqrt (822.933 ^ 2 + (-4787.187) ^ 2)) (Real.arcsin (4120.262 / Real.sqrt (822.933 ^ 2 + (-4787.187) ^ 2 + 4120.262 ^ 2))))) = Real.arctan ((4120.262 + R_E_KM / Real.sqrt (1 - E_E ^ 2 * Real.sin (latUpdate 4120.262 (Real.sqrt (822.933 ^ 2 + (-4787.187) ^ 2)) (Real.arcsin (4120.262 / Real.sqrt (822.933 ^ 2 + (-4787.187) ^ 2 + 4120.262 ^ 2)))) ^ 2) * E_E ^ 2 * Real.sin (latUpdate 4120.262 (Real.sqrt (822.933 ^ 2 + (-4787.187) ^ 2)) (Real.arcsin (4120.262 / Real.sqrt (822.933 ^ 2 + (-4787.187) ^ 2 + 4120.262 ^ 2))))) / (Real.sqrt (822.933 ^ 2 + (-4787.187) ^ 2))) from rfl]
    nth_rewrite 3 [show (latUpdate 4120.262 (Real.sqrt (822.933 ^ 2 + (-4787.187) ^ 2)) (Real.arcsin (4120.262 / Real.sqrt (822.933 ^ 2 + (-4787.187) ^ 2 + 4120.262 ^ 2)))) = Real.arctan ((4120.262 + R_E_KM / Real.sqrt (1 - E_E ^ 2 * Real.sin (Real.arcsin (4120.262 / Real.sqrt (822.933 ^ 2 + (-4787.187) ^ 2 + 4120.262 ^ 2))) ^ 2) * E_E ^ 2 * Real.sin (Real.arcsin (4120.262 / Real.sqrt (822.933 ^ 2 + (-4787.187) ^ 2 + 4120.262 ^ 2)))) / (Real.sqrt (822.933 ^ 2 + (-4787.187) ^ 2))) from rfl]
    exact lt_of_lt_of_le
      (arctan_gap_num hv0nn hv0v1 bv1.1 bv0.2 bp2.2 (by norm_num)) (le_abs_self _)
  have hclose3 : |(latUpdate 4120.262 (Real.sqrt (822.933 ^ 2 + (-4787.187) ^ 2)) (latUpdate 4120.262 (Real.sqrt (822.933 ^ 2 + (-4787.187) ^ 2)) (latUpdate 4120.262 (Real.sqrt (822.933 ^ 2 + (-4787.187) ^ 2)) (Real.arcsin (4120.262 / Real.sqrt (822.933 ^ 2 + (-4787.187) ^ 2 + 4120.262 ^ 2)))))) - (latUpdate 4120.262 (Real.sqrt (822.933 ^ 2 + (-4787.187) ^ 2)) (latUpdate 4120.262 (Real.sqrt (822.933 ^ 2 + (-4787.187) ^ 2)) (Real.arcsin (4120.262 / Real.sqrt (822.933 ^ 2 + (-4787.187) ^ 2 + 4120.262 ^ 2)))))| ≤ (10e-7 : ℝ) := by
    rw [show (latUpdate 4120.262 (Real.sqrt (822.933 ^ 2 + (-4787.187) ^ 2)) (latUpdate 4120.262 (Real.sqrt (822.933 ^ 2 + (-4787.187) ^ 2)) (latUpdate 4120.262 (Real.sqrt (822.933 ^ 2 + (-4787.187) ^ 2)) (Real.arcsin (4120.262 / Real.sqrt (822.933 ^ 2 + (-4787.187) ^ 2 + 4120.262 ^ 2)))))) = Real.arctan ((4120.262 + R_E_KM / Real.sqrt (1 - E_E ^ 2 * Real.sin (latUpdate 4120.262 (Real.sqrt (822.933 ^ 2 + (-4787.187) ^ 2)) (latUpdate 4120.262 (Real.sqrt (822.933 ^ 2 + (-4787.187) ^ 2)) (Real.arcsin (4120.262 / Real.sqrt (822.933 ^ 2 + (-4787.187) ^ 2 + 4120.262 ^ 2))))) ^ 2) * E_E ^ 2 * Real.sin (latUpdate 4120.262 (Real.sqrt (822.933 ^ 2 + (-4787.187) ^ 2)) (latUpdate 4120.262 (Real.sqrt (822.933 ^ 2 + (-4787.187) ^ 2)) (Real.arcsin (4120.262 / Real.sqrt (822.933 ^ 2 + (-4787.187) ^ 2 + 4120.262 ^ 2)))))) / (Real.sqrt (822.933 ^ 2 + (-4787.187) ^ 2))) from rfl]
    nth_rewrite 3 [show (latUpdate 4120.262 (Real.sqrt (822.933 ^ 2 + (-4787.187) ^ 2)) (latUpdate 4120.262 (Real.sqrt (822.933 ^ 2 + (-4787.187) ^ 2)) (Real.arcsin (4120.262 / Real.sqrt (822.933 ^ 2 + (-4787.187) ^ 2 + 4120.262 ^ 2))))) = Real.arctan ((4120.262 + R_E_KM / Real.sqrt (1 - E_E ^ 2 * Real.sin (latUpdate 4120.262 (Real.sqrt (822.933 ^ 2 + (-4787.187) ^ 2)) (Real.arcsin (4120.262 / Real.sqrt (822.933 ^ 2 + (-4787.187) ^ 2 + 4120.262 ^ 2)))) ^ 2) * E_E ^ 2 * Real.sin (latUpdate 4120.262 (Real.sqrt (822.933 ^ 2 + (-4787.187) ^ 2)) (Real.arcsin (4120.262 / Real.sqrt (822.933 ^ 2 + (-4787.187) ^ 2 + 4120.262 ^ 2))))) / (Real.sqrt (822.933 ^ 2 + (-4787.187) ^ 2))) from rfl]
    exact arctan_close_num bv1.1 bv1.2 bv2.1 bv2.2 (by norm_num) (by norm_num) (by norm_num)
  have hsq1ne : (Real.sqrt (822.933 ^ 2 + (-4787.187) ^ 2)) ≠ 0 := ne_of_gt (lt_of_lt_of_le (by norm_num) bsq1.1)
  have hsq0ne : (Real.sqrt (822.933 ^ 2 + (-4787.187) ^ 2 + 4120.262 ^ 2)) ≠ 0 := ne_of_gt (lt_of_lt_of_le (by norm_num) bsq0.1)
  have hdom : |4120.262 / Real.sqrt (822.933 ^ 2 + (-4787.187) ^ 2 + 4120.262 ^ 2)| ≤ 1 :=
    abs_le.mpr ⟨le_trans (by norm_num) bs0.1, le_trans bs0.2 (by norm_num)⟩
  have hloop := latLoop_exact_three 4120.262 (Real.sqrt (822.933 ^ 2 + (-4787.187) ^ 2)) (Real.arcsin (4120.262 / Real.sqrt (822.933 ^ 2 + (-4787.187) ^ 2 + 4120.262 ^ 2))) hsq1ne hgap1 hgap2 hclose3
  have hsolve : geodetic_solve (some 822.933) (some (-4787.187)) (some 4120.262) =
      Except.ok (⟨some (latUpdate 4120.262 (Real.sqrt (822.933 ^ 2 + (-4787.187) ^ 2)) (latUpdate 4120.262 (Real.sqrt (822.933 ^ 2 + (-4787.187) ^ 2)) (latUpdate 4120.262 (Real.sqrt (822.933 ^ 2 + (-4787.187) ^ 2)) (Real.arcsin (4120.262 / Real.sqrt (822.933 ^ 2 + (-4787.187) ^ 2 + 4120.262 ^ 2)))))), some (latUpdate 4120.262 (Real.sqrt (822.933 ^ 2 + (-4787.187) ^ 2)) (latUpdate 4120.262 (Real.sqrt (822.933 ^ 2 + (-4787.187) ^ 2)) (Real.arcsin (4120.262 / Real.sqrt (822.933 ^ 2 + (-4787.187) ^ 2 + 4120.262 ^ 2))))),
        some (R_E_KM / Real.sqrt (1 - E_E ^ 2 * Real.sin (latUpdate 4120.262 (Real.sqrt (822.933 ^ 2 + (-4787.187) ^ 2)) (latUpdate 4120.262 (Real.sqrt (822.933 ^ 2 + (-4787.187) ^ 2)) (Real.arcsin (4120.262 / Real.sqrt (822.933 ^ 2 + (-4787.187) ^ 2 + 4120.262 ^ 2))))) ^ 2)), 3⟩,
        some (Complex.arg ⟨822.933, -4787.187⟩)) := by
    simp only [geodetic_solve, pyAtan2_some_some, pyPow_some, pyAdd_some_some]
    rw [pySqrt_some _ (by norm_num)]
    simp only [exc_bind_ok]
    rw [pyDiv_some_some _ _ hsq0ne]
    simp only [exc_bind_ok]
    rw [pyAsin_some _ hdom]
    simp only [exc_bind_ok]
    rw [pySqrt_some _ (by norm_num)]
    simp only [exc_bind_ok]
    rw [hloop]
    simp only [exc_bind_ok]
  have hzne : (⟨822.933, -4787.187⟩ : ℂ) ≠ 0 := by
    intro hz
    have h1 : (822.933 : ℝ) = 0 := congrArg Complex.re hz
    norm_num at h1
  have habs : Complex.abs ⟨822.933, -4787.187⟩ = Real.sqrt (822.933 ^ 2 + (-4787.187) ^ 2) := by
    rw [Complex.abs_apply, Complex.normSq_mk]
    congr 1
    ring
  have hcosL : Real.cos (Complex.arg ⟨822.933, -4787.187⟩) = 822.933 / Real.sqrt (822.933 ^ 2 + (-4787.187) ^ 2) := by
    rw [Complex.cos_arg hzne, habs]
  have hsinL : Real.sin (Complex.arg ⟨822.933, -4787.187⟩) = -4787.187 / Real.sqrt (822.933 ^ 2 + (-4787.187) ^ 2) := by
    rw [Complex.sin_arg, habs]
  have hsin3 : Real.sin (latUpdate 4120.262 (Real.sqrt (822.933 ^ 2 + (-4787.187) ^ 2)) (latUpdate 4120.262 (Real.sqrt (822.933 ^ 2 + (-4787.187) ^ 2)) (latUpdate 4120.262 (Real.sqrt (822.933 ^ 2 + (-4787.187) ^ 2)) (Real.arcsin (4120.262 / Real.sqrt (822.933 ^ 2 + (-4787.187) ^ 2 + 4120.262 ^ 2)))))) = ((4120.262 + R_E_KM / Real.sqrt (1 - E_E ^ 2 * Real.sin (latUpdate 4120.262 (Real.sqrt (822.933 ^ 2 + (-4787.187) ^ 2)) (latUpdate 4120.262 (Real.sqrt (822.933 ^ 2 + (-4787.187) ^ 2)) (Real.arcsin (4120.262 / Real.sqrt (822.933 ^ 2 + (-4787.187) ^ 2 + 4120.262 ^ 2))))) ^ 2) * E_E ^ 2 * Real.sin (latUpdate 4120.262 (Real.sqrt (822.933 ^ 2 + (-4787.187) ^ 2)) (latUpdate 4120.262 (Real.sqrt (822.933 ^ 2 + (-4787.187) ^ 2)) (Real.arcsin (4120.262 / Real.sqrt (822.933 ^ 2 + (-4787.187) ^ 2 + 4120.262 ^ 2)))))) / (Real.sqrt (822.933 ^ 2 + (-4787.187) ^ 2))) / Real.sqrt (1 + ((4120.262 + R_E_KM / Real.sqrt (1 - E_E ^ 2 * Real.sin (latUpdate 4120.262 (Real.sqrt (822.933 ^ 2 + (-4787.187) ^ 2)) (latUpdate 4120.262 (Real.sqrt (822.933 ^ 2 + (-4787.187) ^ 2)) (Real.arcsin (4120.262 / Real.sqrt (822.933 ^ 2 + (-4787.187) ^ 2 + 4120.262 ^ 2))))) ^ 2) * E_E ^ 2 * Real.sin (latUpdate 4120.262 (Real.sqrt (822.933 ^ 2 + (-4787.187) ^ 2)) (latUpdate 4120.262 (Real.sqrt (822.933 ^ 2 + (-4787.187) ^ 2)) (Real.arcsin (4120.262 / Real.sqrt (822.933 ^ 2 + (-4787.187) ^ 2 + 4120.262 ^ 2)))))) / (Real.sqrt (822.933 ^ 2 + (-4787.187) ^ 2))) ^ 2) := by
    rw [show (latUpdate 4120.262 (Real.sqrt (822.933 ^ 2 + (-4787.187) ^ 2)) (latUpdate 4120.262 (Real.sqrt (822.933 ^ 2 + (-4787.187) ^ 2)) (latUpdate 4120.262 (Real.sqrt (822.933 ^ 2 + (-4787.187) ^ 2)) (Real.arcsin (4120.262 / Real.sqrt (822.933 ^ 2 + (-4787.187) ^ 2 + 4120.262 ^ 2)))))) = Real.arctan ((4120.262 + R_E_KM / Real.sqrt (1 - E_E ^ 2 * Real.sin (latUpdate 4120.262 (Real.sqrt (822.933 ^ 2 + (-4787.187) ^ 2)) (latUpdate 4120.262 (Real.sqrt (822.933 ^ 2 + (-4787.187) ^ 2)) (Real.arcsin (4120.262 / Real.sqrt (822.933 ^ 2 + (-4787.187) ^ 2 + 4120.262 ^ 2))))) ^ 2) * E_E ^ 2 * Real.sin (latUpdate 4120.262 (Real.sqrt (822.933 ^ 2 + (-4787.187) ^ 2)) (latUpdate 4120.262 (Real.sqrt (822.933 ^ 2 + (-4787.187) ^ 2)) (Real.arcsin (4120.262 / Real.sqrt (822.933 ^ 2 + (-4787.187) ^ 2 + 4120.262 ^ 2)))))) / (Real.sqrt (822.933 ^ 2 + (-4787.187) ^ 2))) from rfl, Real.sin_arctan]
  have hcos3 : Real.cos (latUpdate 4120.262 (Real.sqrt (822.933 ^ 2 + (-4787.187) ^ 2)) (latUpdate 4120.262 (Real.sqrt (822.933 ^ 2 + (-4787.187) ^ 2)) (latUpdate 4120.262 (Real.sqrt (822.933 ^ 2 + (-4787.187) ^ 2)) (Real.arcsin (4120.262 / Real.sqrt (822.933 ^ 2 + (-4787.187) ^ 2 + 4120.262 ^ 2)))))) = 1 / Real.sqrt (1 + ((4120.262 + R_E_KM / Real.sqrt (1 - E_E ^ 2 * Real.sin (latUpdate 4120.262 (Real.sqrt (822.933 ^ 2 + (-4787.187) ^ 2)) (latUpdate 4120.262 (Real.sqrt (822.933 ^ 2 + (-4787.187) ^ 2)) (Real.arcsin (4120.262 / Real.sqrt (822.933 ^ 2 + (-4787.187) ^ 2 + 4120.262 ^ 2))))) ^ 2) * E_E ^ 2 * Real.sin (latUpdate 4120.262 (Real.sqrt (822.933 ^ 2 + (-4787.187) ^ 2)) (latUpdate 4120.262 (Real.sqrt (822.933 ^ 2 + (-4787.187) ^ 2)) (Real.arcsin (4120.262 / Real.sqrt (822.933 ^ 2 + (-4787.187) ^ 2 + 4120.262 ^ 2)))))) / (Real.sqrt (822.933 ^ 2 + (-4787.187) ^ 2))) ^ 2) := by
    rw [show (latUpdate 4120.262 (Real.sqrt (822.933 ^ 2 + (-4787.187) ^ 2)) (latUpdate 4120.262 (Real.sqrt (822.933 ^ 2 + (-4787.187) ^ 2)) (latUpdate 4120.262 (Real.sqrt (822.933 ^ 2 + (-4787.187) ^ 2)) (Real.arcsin (4120.262 / Real.sqrt (822.933 ^ 2 + (-4787.187) ^ 2 + 4120.262 ^ 2)))))) = Real.arctan ((4120.262 + R_E_KM / Real.sqrt (1 - E_E ^ 2 * Real.sin (latUpdate 4120.262 (Real.sqrt (822.933 ^ 2 + (-4787.187) ^ 2)) (latUpdate 4120.262 (Real.sqrt (822.933 ^ 2 + (-4787.187) ^ 2)) (Real.arcsin (4120.262 / Real.sqrt (822.933 ^ 2 + (-4787.187) ^ 2 + 4120.262 ^ 2))))) ^ 2) * E_E ^ 2 * Real.sin (latUpdate 4120.262 (Real.sqrt (822.933 ^ 2 + (-4787.187) ^ 2)) (latUpdate 4120.262 (Real.sqrt (822.933 ^ 2 + (-4787.187) ^ 2)) (Real.arcsin (4120.262 / Real.sqrt (822.933 ^ 2 + (-4787.187) ^ 2 + 4120.262 ^ 2)))))) / (Real.sqrt (822.933 ^ 2 + (-4787.187) ^ 2))) from rfl, Real.cos_arctan]
  have hrun : runScript (some 822.933) (some (-4787.187)) (some 4120.262)
      (some 1131.698) (some (-4479.324)) (some 4430.228) =
      Except.ok
        (some (Real.sin (latUpdate 4120.262 (Real.sqrt (822.933 ^ 2 + (-4787.187) ^ 2)) (latUpdate 4120.262 (Real.sqrt (822.933 ^ 2 + (-4787.187) ^ 2)) (latUpdate 4120.262 (Real.sqrt (822.933 ^ 2 + (-4787.187) ^ 2)) (Real.arcsin (4120.262 / Real.sqrt (822.933 ^ 2 + (-4787.187) ^ 2 + 4120.262 ^ 2)))))) * (Real.cos (Complex.arg ⟨822.933, -4787.187⟩) * (1131.698 - 822.933) +
            Real.sin (Complex.arg ⟨822.933, -4787.187⟩) * (-4479.324 - -4787.187)) -
            Real.cos (latUpdate 4120.262 (Real.sqrt (822.933 ^ 2 + (-4787.187) ^ 2)) (latUpdate 4120.262 (Real.sqrt (822.933 ^ 2 + (-4787.187) ^ 2)) (latUpdate 4120.262 (Real.sqrt (822.933 ^ 2 + (-4787.187) ^ 2)) (Real.arcsin (4120.262 / Real.sqrt (822.933 ^ 2 + (-4787.187) ^ 2 + 4120.262 ^ 2)))))) * (4430.228 - 4120.262)),
         some (-Real.sin (Complex.arg ⟨822.933, -4787.187⟩) * (1131.698 - 822.933) +
            Real.cos (Complex.arg ⟨822.933, -4787.187⟩) * (-4479.324 - -4787.187)),
         some (Real.cos (latUpdate 4120.262 (Real.sqrt (822.933 ^ 2 + (-4787.187) ^ 2)) (latUpdate 4120.262 (Real.sqrt (822.933 ^ 2 + (-4787.187) ^ 2)) (latUpdate 4120.262 (Real.sqrt (822.933 ^ 2 + (-4787.187) ^ 2)) (Real.arcsin (4120.262 / Real.sqrt (822.933 ^ 2 + (-4787.187) ^ 2 + 4120.262 ^ 2)))))) * (Real.cos (Complex.arg ⟨822.933, -4787.187⟩) * (1131.698 - 822.933) +
            Real.sin (Complex.arg ⟨822.933, -4787.187⟩) * (-4479.324 - -4787.187)) +
            Real.sin (latUpdate 4120.262 (Real.sqrt (822.933 ^ 2 + (-4787.187) ^ 2)) (latUpdate 4120.262 (Real.sqrt (822.933 ^ 2 + (-4787.187) ^ 2)) (latUpdate 4120.262 (Real.sqrt (822.933 ^ 2 + (-4787.187) ^ 2)) (Real.arcsin (4120.262 / Real.sqrt (822.933 ^ 2 + (-4787.187) ^ 2 + 4120.262 ^ 2)))))) * (4430.228 - 4120.262))) := by
    simp only [runScript]
    rw [hsolve]
    simp only [exc_bind_ok]
    exact sez_transform_finite (latUpdate 4120.262 (Real.sqrt (822.933 ^ 2 + (-4787.187) ^ 2)) (latUpdate 4120.262 (Real.sqrt (822.933 ^ 2 + (-4787.187) ^ 2)) (latUpdate 4120.262 (Real.sqrt (822.933 ^ 2 + (-4787.187) ^ 2)) (Real.arcsin (4120.262 / Real.sqrt (822.933 ^ 2 + (-4787.187) ^ 2 + 4120.262 ^ 2)))))) (Complex.arg ⟨822.933, -4787.187⟩) 822.933 (-4787.187) 4120.262
      1131.698 (-4479.324) 4430.228
  have hPeq : 822.933 / (Real.sqrt (822.933 ^ 2 + (-4787.187) ^ 2)) * 308.765 + -4787.187 / (Real.sqrt (822.933 ^ 2 + (-4787.187) ^ 2)) * 307.863 =
      -1219704.843636 / (Real.sqrt (822.933 ^ 2 + (-4787.187) ^ 2)) := by
    rw [div_mul_eq_mul_div, div_mul_eq_mul_div, div_add_div_same]
    norm_num
  have bP : (-251.102178847 : ℝ) ≤ -1219704.843636 / (Real.sqrt (822.933 ^ 2 + (-4787.187) ^ 2)) ∧
      -1219704.843636 / (Real.sqrt (822.933 ^ 2 + (-4787.187) ^ 2)) ≤ -251.102178846 := cdiv_bound_neg (by norm_num) (by norm_num) bsq1.1 bsq1.2 (by norm_num) (by norm_num) (by norm_num)
  have bEq : (356.459181074 : ℝ) ≤ 1731466.416234 / (Real.sqrt (822.933 ^ 2 + (-4787.187) ^ 2)) ∧
      1731466.416234 / (Real.sqrt (822.933 ^ 2 + (-4787.187) ^ 2)) ≤ 356.459181076 := cdiv_bound (by norm_num) (by norm_num) bsq1.1 bsq1.2 (by norm_num) (by norm_num) (by norm_num)
  have bprodS := mul_pos_neg_bound (by norm_num : (0:ℝ) ≤ 0.649394960) bs3q.1 bs3q.2 bP.1 bP.2 (by norm_num)
  have bprodZ := mul_pos_neg_bound (by norm_num : (0:ℝ) ≤ 0.760451302) bc3q.1 bc3q.2 bP.1 bP.2 (by norm_num)
  have bc3dz := mul_bound (by norm_num : (0:ℝ) ≤ 0.760451302) bc3q.1 bc3q.2
    (by norm_num : (0:ℝ) ≤ 309.966) (le_refl (309.966 : ℝ)) (le_refl (309.966 : ℝ))
    (le_refl _) (le_refl _)
  have bs3dz := mul_bound (by norm_num : (0:ℝ) ≤ 0.649394960) bs3q.1 bs3q.2
    (by norm_num : (0:ℝ) ≤ 309.966) (le_refl (309.966 : ℝ)) (le_refl (309.966 : ℝ))
    (le_refl _) (le_refl _)
  refine ⟨_, _, _, hrun, ?_, ?_, ?_⟩
  · rw [hsin3, hcos3, hcosL, hsinL,
      show ((1131.698 : ℝ) - 822.933) = 308.765 from by norm_num,
      show ((-4479.324 : ℝ) - -4787.187) = 307.863 from by norm_num,
      show ((4430.228 : ℝ) - 4120.262) = 309.966 from by norm_num,
      hPeq]
    exact abs_sub_sub_le bprodS.1 bprodS.2 bc3dz.1 bc3dz.2 (by norm_num) (by norm_num)
  · rw [hcosL, hsinL,
      show ((1131.698 : ℝ) - 822.933) = 308.765 from by norm_num,
      show ((-4479.324 : ℝ) - -4787.187) = 307.863 from by norm_num]
    have hEeq : -(-4787.187 / (Real.sqrt (822.933 ^ 2 + (-4787.187) ^ 2))) * 308.765 + 822.933 / (Real.sqrt (822.933 ^ 2 + (-4787.187) ^ 2)) * 307.863 =
        1731466.416234 / (Real.sqrt (822.933 ^ 2 + (-4787.187) ^ 2)) := by
      rw [neg_mul, div_mul_eq_mul_div, div_mul_eq_mul_div, ← neg_div, div_add_div_same]
      norm_num
    rw [hEeq]
    exact abs_sub_le_of_bounds bEq.1 bEq.2 (by norm_num) (by norm_num)
  · rw [hsin3, hcos3, hcosL, hsinL,
      show ((1131.698 : ℝ) - 822.933) = 308.765 from by norm_num,
      show ((-4479.324 : ℝ) - -4787.187) = 307.863 from by norm_num,
      show ((4430.228 : ℝ) - 4120.262) = 309.966 from by norm_num,
      hPeq]
    exact abs_add_sub_le bprodZ.1 bprodZ.2 bs3dz.1 bs3dz.2 (by norm_num) (by norm_num)
end EcefToSez
